import Mathlib

/-!
Shallow embedding of the multi-agent routing engine of the
`python-langgraph-service` repository (app/agents/*), together with proofs
of the specified routing / state-composition properties.

Python dict-valued fields are embedded as records with `Option`-typed
fields; Python truthiness of an optional string is `Option`-some with a
non-empty payload.  `datetime.utcnow()` / `time.time()` are modelled by an
explicit `Nat` clock handed to each graph node by the runner (one tick per
node invocation).
-/

namespace BMAD

/-! ## String utilities (Python `str` semantics on ASCII text) -/

/-- `s.lower()` (ASCII). -/
def lowerStr (s : String) : String := String.mk (s.data.map Char.toLower)

/-- `s.upper()` (ASCII). -/
def upperStr (s : String) : String := String.mk (s.data.map Char.toUpper)

/-- `needle in hay` on char lists (Python substring test; empty needle is found). -/
def charsContain (needle : List Char) : List Char → Bool
  | [] => needle.isEmpty
  | c :: cs => needle.isPrefixOf (c :: cs) || charsContain needle cs

/-- Python `sub in hay` for strings. -/
def strIncludes (hay sub : String) : Bool := charsContain sub.data hay.data

/-- Python `str.split()` : split on whitespace runs, dropping empty pieces. -/
def splitWs (s : String) : List String :=
  go s.data []
where
  go : List Char → List Char → List String
    | [], acc => if acc.isEmpty then [] else [String.mk acc.reverse]
    | c :: cs, acc =>
      if c.isWhitespace then
        if acc.isEmpty then go cs [] else String.mk acc.reverse :: go cs []
      else go cs (c :: acc)

/-- Python regex `\w` word character, used for `\b` boundaries. -/
def isWordCharB (c : Char) : Bool := c.isAlphanum || c = '_'

/-- Truthiness of an optional string value in a Python dict (`None`/`""` are falsy). -/
def optStrTruthy : Option String → Bool
  | none => false
  | some s => !s.isEmpty

/-- Render an optional string the way a Python f-string renders the value. -/
def optToStr : Option String → String
  | none => "None"
  | some s => s

/-! ## Regex scanners

The source uses three `re` patterns for PDB identifiers plus two
structure-display patterns.  They are embedded as direct scanners with the
same matching semantics (case-insensitivity, `\b` boundaries, optional-group
backtracking, non-overlapping `findall`). -/

/-- Regex char class `[1-9]`. -/
def pdbHead (c : Char) : Bool := c.isDigit && c != '0'

/-- Regex char class `[A-Z0-9]` (case-sensitive, as in the `\b([1-9][A-Z0-9]{3})\b` pattern). -/
def pdbBody (c : Char) : Bool := c.isDigit || c.isUpper

/-- Regex char class `[A-Z0-9]` under the `(?i)` flag. -/
def pdbBodyCI (c : Char) : Bool := c.isDigit || c.isAlpha

/-- Try pattern `\b([1-9][A-Z0-9]{3})\b` at the head of `l`, `prev` being the
preceding character (`none` at start of string).  Returns the group and the rest. -/
def tryPdbBounded (prev : Option Char) (l : List Char) : Option (String × List Char) :=
  match l with
  | a :: b :: c :: d :: rest =>
    if (match prev with | none => true | some p => !isWordCharB p)
        && pdbHead a && pdbBody b && pdbBody c && pdbBody d
        && (match rest with | [] => true | e :: _ => !isWordCharB e) then
      some (String.mk [a, b, c, d], rest)
    else none
  | _ => none

/-- `re.findall(r'\b([1-9][A-Z0-9]{3})\b', text)` : left-to-right,
non-overlapping. -/
def findallPdbBounded (cs : List Char) : List String :=
  go cs.length none cs
where
  go : Nat → Option Char → List Char → List String
    | 0, _, _ => []
    | _, _, [] => []
    | fuel + 1, prev, l@(c :: rest) =>
      match tryPdbBounded prev l with
      | some (g, rest') => g :: go fuel (some (g.data.getLastD c)) rest'
      | none => go fuel (some c) rest

/-- Case-insensitive literal match; returns the rest of the input on success. -/
def matchLitCI : List Char → List Char → Option (List Char)
  | [], l => some l
  | _, [] => none
  | p :: ps, c :: cs => if p.toLower = c.toLower then matchLitCI ps cs else none

/-- Regex `\s+` (greedy). -/
def matchWs1 : List Char → Option (List Char)
  | c :: cs => if c.isWhitespace then some (cs.dropWhile Char.isWhitespace) else none
  | [] => none

/-- Literal word followed by `\s+`. -/
def litWs (w : String) (l : List Char) : Option (List Char) :=
  (matchLitCI w.data l).bind matchWs1

/-- Regex alternation with backtracking into the continuation `k`. -/
def altMatch {α : Type} (ws : List String) (k : List Char → Option α) (l : List Char) : Option α :=
  match ws with
  | [] => none
  | w :: rest =>
    match matchLitCI w.data l with
    | some r =>
      match k r with
      | some v => some v
      | none => altMatch rest k l
    | none => altMatch rest k l

/-- Optional regex group `(?:a|b|...)?` with backtracking: try each
alternative (each given as a partial matcher) followed by `k`, then `k`
without the group. -/
def optAlt {α : Type} (alts : List (List Char → Option (List Char)))
    (k : List Char → Option α) (l : List Char) : Option α :=
  match alts with
  | [] => k l
  | f :: fs =>
    match f l with
    | some r =>
      match k r with
      | some v => some v
      | none => optAlt fs k l
    | none => optAlt fs k l

/-- The group `([1-9][A-Z0-9]{3})` under `(?i)` (no trailing `\b`). -/
def pdbGroupCI : List Char → Option (String × List Char)
  | a :: b :: c :: d :: rest =>
    if pdbHead a && pdbBodyCI b && pdbBodyCI c && pdbBodyCI d then
      some (String.mk [a, b, c, d], rest)
    else none
  | _ => none

/-- One attempt of pattern
`(?i)(?:show|display|load|view)\s+(?:me\s+)?(?:structure\s+|protein\s+)?([1-9][A-Z0-9]{3})`. -/
def tryShowPdb (l : List Char) : Option (String × List Char) :=
  altMatch ["show", "display", "load", "view"]
    (fun r1 => (matchWs1 r1).bind fun r2 =>
      optAlt [litWs "me"]
        (fun r3 => optAlt [litWs "structure", litWs "protein"] pdbGroupCI r3) r2) l

/-- One attempt of pattern
`(?i)(?:get|fetch|find)\s+(?:structure\s+|protein\s+)?([1-9][A-Z0-9]{3})`. -/
def tryGetPdb (l : List Char) : Option (String × List Char) :=
  altMatch ["get", "fetch", "find"]
    (fun r1 => (matchWs1 r1).bind fun r2 =>
      optAlt [litWs "structure", litWs "protein"] pdbGroupCI r2) l

/-- `re.findall` driver for the verb-led PDB patterns. -/
def findallWith (try1 : List Char → Option (String × List Char)) (cs : List Char) : List String :=
  go cs.length cs
where
  go : Nat → List Char → List String
    | 0, _ => []
    | _, [] => []
    | fuel + 1, l@(_ :: rest) =>
      match try1 l with
      | some (g, rest') => g :: go fuel rest'
      | none => go fuel rest

/-- `[^.]*?(?:structure|protein)` : some occurrence of the target with no `'.'`
before it. -/
def noDotThenTarget : List Char → Bool
  | [] => false
  | l@(c :: rest) =>
    (matchLitCI "structure".data l).isSome || (matchLitCI "protein".data l).isSome
      || (c != '.' && noDotThenTarget rest)

/-- One attempt of `(?i)(?:show|display|load|view)\s+(?:[^.]*?(?:structure|protein))`. -/
def tryDisplayStructure (l : List Char) : Bool :=
  (altMatch ["show", "display", "load", "view"]
    (fun r1 => (matchWs1 r1).bind fun r2 =>
      if noDotThenTarget r2 then some () else none) l).isSome

/-- `re.search` of the first structure-display pattern. -/
def searchDisplayStructure (s : String) : Bool :=
  s.data.tails.any tryDisplayStructure

/-- One attempt of `protein\s+data\s+bank` (case-insensitive). -/
def tryDataBank (l : List Char) : Bool :=
  ((litWs "protein" l).bind fun r1 =>
    (litWs "data" r1).bind fun r2 =>
      matchLitCI "bank".data r2).isSome

/-- `re.search(r'(?i)(?:pdb|protein\s+data\s+bank)', s)`. -/
def searchPdbWord (s : String) : Bool :=
  strIncludes (lowerStr s) "pdb" || s.data.tails.any tryDataBank

/-- `_extract_pdb_ids` (pdb_search_agent.py): three `findall`s, then
validation `len == 4 and first char is a digit` after upcasing. -/
def extractPdbIds (text : String) : List String :=
  let detected := findallPdbBounded text.data
      ++ findallWith tryShowPdb text.data ++ findallWith tryGetPdb text.data
  (detected.map upperStr).filter fun pid =>
    pid.data.length = 4 && (match pid.data with | c :: _ => c.isDigit | [] => false)

/-- `bool(re.match(r'^[1-9][A-Z0-9]{3}$', text.upper()))` (`_is_pdb_id`). -/
def isPdbIdStr (text : String) : Bool :=
  match (upperStr text).data with
  | [a, b, c, d] => pdbHead a && pdbBody b && pdbBody c && pdbBody d
  | _ => false

/-- `list(set(xs))` — CPython set order is unspecified; embedded as
first-occurrence deduplication (all claims touch lists with at most one
distinct element, where the two agree). -/
def dedupFirst (l : List String) : List String :=
  go [] l
where
  go (seen : List String) : List String → List String
    | [] => []
    | x :: xs => if x ∈ seen then go seen xs else x :: go (x :: seen) xs

/-! ## Data model

`AgentState` (base_agent.py) and the payload shapes flowing through it.
Open-ended dicts are embedded as records holding exactly the keys the
source reads or writes; an `Option` field is `none` when the key is absent. -/

/-- Message role (`HumanMessage` / `AIMessage` / `SystemMessage`). -/
inductive Role
  | human
  | ai
  | system
deriving DecidableEq, Repr

/-- A role-tagged message. -/
structure Msg where
  role : Role
  content : String
deriving DecidableEq, Repr

/-- Record returned by the structure-database collaborator
(`PDBSearchEngine.search_by_id`); `status = "success"` marks a hit. -/
structure SearchRecord where
  status : String
  pdb_id : Option String := none
  title : Option String := none
  resolution : Option String := none
  experiment_type : Option String := none
  organism : List String := []
  release_date : Option String := none
  molecular_weight : Option String := none
  error : Option String := none
  protein_name : Option String := none
deriving DecidableEq, Repr

/-- Record returned by `search_by_keyword`; `results` is `some` when the
payload's `results` key holds a list. -/
structure KeywordRecord where
  status : String
  results : Option (List SearchRecord) := none
deriving DecidableEq, Repr

/-- `_extract_structure_info` output. -/
structure StructInfo where
  pdb_id : Option String
  title : String
  resolution : Option String
  experiment_type : String
  organism : List String
  release_date : Option String
  molecular_weight : Option String
  structure_url : Option String
  protein_name : Option String := none
deriving DecidableEq, Repr

/-- The `result` sub-dict of a visualization action. -/
structure VizResult where
  pdb_id : Option String
  structure_url : String
  title : String
  resolution : Option String
  experiment_type : String
  organism : List String
  search_type : String
  protein_name : Option String
deriving DecidableEq, Repr

/-- A visualization action (`_create_visualization_action`); the nested
`metadata` dict is flattened into `meta_`-prefixed fields. -/
structure VizAction where
  id : String
  type : String
  description : String
  result : VizResult
  timestamp : Nat
  duration : Nat
  success : Bool
  meta_source : String
  meta_pdb_id : Option String
  meta_protein_name : Option String
  meta_workflow_id : String
deriving DecidableEq, Repr

/-- `_process_search_results` output (the nested `metadata` dict flattened). -/
structure ProcessedResults where
  structures_found : List StructInfo
  actions : List VizAction
  total_searches : Nat
  total_found : Nat
  search_timestamp : Nat
deriving DecidableEq, Repr

/-- A value stored in the `search_results` dict: the pdb agent stores its
processed results under its agent id; the `raw` case covers a raw payload
(as read by the analysis agent's `search_results["pdb_data"]` branch, a key
this system itself never writes). -/
inductive SearchVal
  | processed (p : ProcessedResults)
  | raw (s : String)
deriving DecidableEq, Repr

/-- `basic_properties` section of an analysis result (dimensions in tenths). -/
structure BasicProps where
  chain_count : Nat := 0
  total_residues : Nat := 0
  total_atoms : Nat := 0
  dimensions : Option (Nat × Nat × Nat) := none
deriving DecidableEq, Repr

/-- Per-chain secondary-structure counts. -/
structure SSChain where
  alpha_helix : Nat := 0
  beta_sheet : Nat := 0
  coil : Nat := 0
deriving DecidableEq, Repr

/-- `hydrogen_bonds` section. -/
structure HBonds where
  total_potential_bonds : Nat := 0
deriving DecidableEq, Repr

/-- Per-chain sequence statistics (molecular weight in whole Daltons). -/
structure SeqInfo where
  length : Nat := 0
  molecular_weight : Option Nat := none
deriving DecidableEq, Repr

/-- `_prepare_analysis_config` output. -/
structure AnalysisConfig where
  analysis_type : String
  structure_data : Option String
  structure_id : String
  requested_analyses : List String
deriving DecidableEq, Repr

/-- `agent_metadata` added by the analysis agent onto the result bag. -/
structure AgentMeta where
  agent_id : String
  analysis_config : AnalysisConfig
  timestamp : Nat
deriving DecidableEq, Repr

/-- The analysis collaborator's nested result bag (each section optional;
binding-site entries are reduced to their labels since only presence and
count are consumed). -/
structure AnalysisBag where
  status : Option String := none
  error : Option String := none
  analysis_type : Option String := none
  structure_id : Option String := none
  basic_properties : Option BasicProps := none
  secondary_structure : Option (List (String × SSChain)) := none
  hydrogen_bonds : Option HBonds := none
  sequence_analysis : Option (List (String × SeqInfo)) := none
  binding_sites : Option (List String) := none
  agent_metadata : Option AgentMeta := none
deriving DecidableEq, Repr

/-- `_generate_analysis_summary` output. -/
structure AnalysisSummary where
  description : String
  key_findings : List String
  recommendations : List String
deriving DecidableEq, Repr

/-- One step of an orchestration plan. -/
structure PlanStep where
  agent : String
  parallel : Bool := false
  multiple : Bool := false
  purpose : Option String := none
deriving DecidableEq, Repr

/-- A matched or synthesized orchestration plan. -/
structure WorkflowPlan where
  workflow_type : String
  description : String
  steps : List PlanStep
deriving DecidableEq, Repr

/-- Key metrics `_extract_key_data` pulls out of a step's resulting state. -/
inductive KeyData
  | pdbK (structures_found : Nat) (structure_ids : List String)
  | molK (analysis_type : Option String) (structure_id : Option String)
      (status : Option String) (basic : Option (Nat × Nat × Nat))
  | convK (response_generated : Bool) (intent_analyzed : Bool)
  | other
deriving DecidableEq, Repr

/-- A per-step record of `_execute_workflow`.  The source stores the step's
full resulting state under a `result` key, later consumed only by
`_extract_key_data`; that extraction is performed at recording time here
(`key_data`), avoiding a recursive state-in-state type. -/
structure StepRes where
  step : Nat
  agent : String
  purpose : Option String
  duration : Nat
  success : Bool
  error : Option String := none
  timestamp : Nat
  key_data : Option KeyData := none
deriving DecidableEq, Repr

/-- `_aggregate_results` output. -/
structure Aggregated where
  total_steps : Nat
  successful_steps : Nat
  failed_steps : Nat
  total_duration : Nat
  agents_involved : List String
  workflow_success : Bool
  results_by_agent : List (String × Nat × KeyData)
deriving DecidableEq, Repr

/-- A value stored in the `analysis_results` dict: an analysis bag keyed by
the analysis agent's id, or the orchestration agent's aggregated summary. -/
inductive AnalysisVal
  | bag (b : AnalysisBag)
  | orchSummary (a : Aggregated)
deriving DecidableEq, Repr

/-- `_analyze_intent` output (confidence scaled to hundredths; the
`domain_indicators` sub-dict has keys `pdb` / `molecular_analysis`, absent
exactly when the corresponding list here is empty, matching how every
reader tests them for truthiness). -/
structure IntentAnalysis where
  primary_intent : String
  confidence_pct : Nat
  entities : List String
  keywords : List String
  dip : List String
  dim : List String
deriving DecidableEq, Repr

/-- `_check_domain_routing` output. -/
structure RoutingDec where
  should_route : Bool
  target_agent : Option String
  reason : String
  confidence_pct : Nat
deriving DecidableEq, Repr

/-- `_generate_response` output (`type` is `"conversation"` or
`"fallback"`; metadata reduced to the token estimate and error text). -/
structure AIResp where
  content : String
  rtype : String
  tokens_used : Nat := 0
  meta_error : Option String := none
deriving DecidableEq, Repr

/-- The `context` bag: exactly the keys the agents read or write. -/
structure Ctx where
  intent_analysis : Option IntentAnalysis := none
  routing_decision : Option RoutingDec := none
  ai_response : Option AIResp := none
  orchestrated_workflow : Bool := false
  workflow_plan : Option WorkflowPlan := none
  workflow_results : Option (List StepRes) := none
  analysis_request : Option String := none
  comparison_request : Bool := false
deriving DecidableEq, Repr

/-- Caller-supplied `parameters` (read-only after creation). -/
structure Params where
  message : Option String := none
  messages : Option (List Msg) := none
  query : Option String := none
  pdb_id : Option String := none
  search_type : Option String := none
  structure_data : Option String := none
  structure_id : Option String := none
  analysis_type : Option String := none
  context : Option Ctx := none
deriving DecidableEq, Repr

/-- `molecular_data` bag: per-key values written by the pdb and analysis
agents (plus the caller-visible `structure_data` / `pdb_data` payloads). -/
structure MolecularData where
  structure_data : Option String := none
  pdb_data : Option String := none
  pdb_id : Option String := none
  structure_id : Option String := none
  structure_url : Option String := none
  structure_metadata : Option StructInfo := none
  all_structures : Option (List StructInfo) := none
  latest_analysis : Option AnalysisBag := none
  analysis_summary : Option AnalysisSummary := none
deriving DecidableEq, Repr

/-- An `agent_handoffs` audit entry. -/
structure Handoff where
  from_agent : String
  to_agent : String
  reason : String
  timestamp : Nat
deriving DecidableEq, Repr

/-- The shared `AgentState` record. -/
structure StateD where
  messages : List Msg := []
  current_agent : String := ""
  workflow_id : String := ""
  workflow_type : String := ""
  context : Ctx := {}
  parameters : Params := {}
  molecular_data : MolecularData := {}
  search_results : List (String × SearchVal) := []
  analysis_results : List (String × AnalysisVal) := []
  visualization_commands : List VizAction := []
  started_at : Option Nat := none
  completed_at : Option Nat := none
  error_state : Option String := none
  next_agent : Option String := none
  agent_handoffs : List Handoff := []
  parallel_results : List (String × String) := []
deriving DecidableEq, Repr

/-- Python dict update `d[k] = v` on an insertion-ordered dict. -/
def assocSet {α : Type} (l : List (String × α)) (k : String) (v : α) : List (String × α) :=
  match l with
  | [] => [(k, v)]
  | (k', v') :: rest => if k' = k then (k, v) :: rest else (k', v') :: assocSet rest k v

/-- Python dict lookup `d.get(k)`. -/
def assocGet {α : Type} (l : List (String × α)) (k : String) : Option α :=
  match l with
  | [] => none
  | (k', v') :: rest => if k' = k then some v' else assocGet rest k

/-- The last message of the state, when it is a `HumanMessage`
(the ubiquitous `state.messages[-1]` / `isinstance(..., HumanMessage)` idiom). -/
def lastHumanContent (s : StateD) : Option String :=
  match s.messages.getLast? with
  | some m => if m.role = Role.human then some m.content else none
  | none => none

/-! ## `can_handle` predicates and routing (the Router) -/

/-- `PDBSearchAgent._load_protein_mappings`. -/
def proteinMappings : List (String × String) :=
  [("hemoglobin", "1GZX"), ("insulin", "1MSO"), ("lysozyme", "1LYZ"),
   ("myoglobin", "1MBO"), ("cytochrome c", "1HRC"), ("collagen", "1CAG"),
   ("albumin", "1AO6"), ("immunoglobulin", "1IGT"), ("antibody", "1IGT"),
   ("ferritin", "1FHA"), ("catalase", "1DGH"), ("pepsin", "1PSG"),
   ("chymotrypsin", "1CHO"), ("trypsin", "1TRN"), ("ribonuclease", "1RNH"),
   ("carbonic anhydrase", "1CA2"), ("alcohol dehydrogenase", "1ADH"),
   ("lactate dehydrogenase", "1LDH"), ("pyruvate kinase", "1PKN"),
   ("glyceraldehyde phosphate dehydrogenase", "1GPD"), ("aldolase", "1ALD"),
   ("phosphoglycerate kinase", "1PGK"), ("enolase", "1ONE"),
   ("pyruvate dehydrogenase", "1PDH"), ("citrate synthase", "1CTS"),
   ("isocitrate dehydrogenase", "1IDH"), ("succinate dehydrogenase", "1NEK"),
   ("fumarase", "1FUO"), ("malate dehydrogenase", "1MLD"),
   ("glucose oxidase", "1GOD"), ("peroxidase", "1ATJ"),
   ("superoxide dismutase", "1SOS"), ("glutathione peroxidase", "1GP1"),
   ("thioredoxin", "1XOB"), ("calmodulin", "1CLL"), ("actin", "1ATN"),
   ("myosin", "1MYS"), ("tubulin", "1TUB"), ("keratin", "1I2M")]

/-- `OrchestrationAgent._load_workflow_definitions` (name, description,
steps, trigger phrases), in insertion order. -/
def workflowDefinitions : List (String × String × List PlanStep × List String) :=
  [("structure_analysis_pipeline", "Complete structure analysis workflow",
    [{agent := "pdb_search_agent"}, {agent := "molecular_analysis_agent"},
     {agent := "conversation_agent"}],
    ["analyze structure", "complete analysis", "full analysis"]),
   ("structure_comparison", "Compare multiple protein structures",
    [{agent := "pdb_search_agent"},
     {agent := "molecular_analysis_agent", parallel := true, multiple := true},
     {agent := "structure_comparison_agent"}, {agent := "conversation_agent"}],
    ["compare structures", "structure comparison", "compare proteins"]),
   ("interactive_search", "Interactive search and display workflow",
    [{agent := "conversation_agent"}, {agent := "pdb_search_agent"},
     {agent := "conversation_agent"}],
    ["search", "find", "show", "display"])]

/-- `ConversationAgent.can_handle`. -/
def convCanHandle (s : StateD) : Bool :=
  match s.messages.getLast? with
  | none => true
  | some m => m.role == Role.human || s.workflow_type == "conversation_processing"

/-- `PDBSearchAgent._detect_pdb_requests`. -/
def detectPdbRequests (s : StateD) : List String :=
  let fromMsg :=
    match s.messages.getLast? with
    | some m => if m.role == Role.human then extractPdbIds m.content else []
    | none => []
  let fromParamId :=
    if optStrTruthy s.parameters.pdb_id then [s.parameters.pdb_id.getD ""] else []
  let fromParamQuery :=
    if optStrTruthy s.parameters.query then extractPdbIds (s.parameters.query.getD "") else []
  let fromCtx :=
    match s.context.intent_analysis with
    | some ia => if ia.dip.isEmpty then [] else ia.dip
    | none => []
  dedupFirst (fromMsg ++ fromParamId ++ fromParamQuery ++ fromCtx)

/-- `PDBSearchAgent._detect_protein_names`. -/
def detectProteinNames (s : StateD) : List String :=
  let inds :=
    match s.context.intent_analysis with
    | some ia => ia.dip
    | none => []
  let fromCtx := inds.filter fun i => (assocGet proteinMappings i).isSome
  match s.messages.getLast? with
  | some m =>
    if m.role == Role.human then
      let ml := lowerStr m.content
      let hasKw := ["structure", "show", "display", "view", "load", "protein"].any
        fun k => strIncludes ml k
      proteinMappings.foldl
        (fun acc p =>
          if strIncludes ml p.1 && !acc.contains p.1 && hasKw then acc ++ [p.1] else acc)
        fromCtx
    else fromCtx
  | none => fromCtx

/-- `PDBSearchAgent.can_handle`. -/
def pdbCanHandle (s : StateD) : Bool :=
  if s.workflow_type == "pdb_search_workflow" then true
  else if !(detectPdbRequests s).isEmpty then true
  else
    let displayMatch :=
      match s.messages.getLast? with
      | some m =>
        if m.role == Role.human then
          let mc := lowerStr m.content
          (["show", "display", "load", "view", "get", "fetch", "find"].any
              fun k => strIncludes mc k)
            && (["structure", "protein", "pdb"].any fun k => strIncludes mc k)
        else false
      | none => false
    if displayMatch then true
    else !(detectProteinNames s).isEmpty

/-- `MolecularAnalysisAgent.can_handle`. -/
def molCanHandle (s : StateD) : Bool :=
  if s.workflow_type == "molecular_analysis_workflow" then true
  else if optStrTruthy s.molecular_data.structure_data
      || optStrTruthy s.molecular_data.pdb_data then true
  else
    let kw :=
      match s.messages.getLast? with
      | some m =>
        if m.role == Role.human then
          ["analyze", "analysis", "structure", "binding", "active site",
           "secondary structure", "hydrogen bonds", "molecular weight",
           "sequence", "protein properties", "hydrophobic", "cavity"].any
            fun k => strIncludes (lowerStr m.content) k
        else false
      | none => false
    if kw then true
    else
      match s.context.intent_analysis with
      | some ia => ia.primary_intent == "analysis_request"
      | none => false

/-- `OrchestrationAgent._detect_complex_workflow`. -/
def detectComplexWorkflow (s : StateD) : Bool :=
  match s.messages.getLast? with
  | none => false
  | some m =>
    if m.role != Role.human then false
    else
      let mc := lowerStr m.content
      (workflowDefinitions.any fun wd => wd.2.2.2.any fun t => strIncludes mc t)
        || (["analyze and compare", "complete analysis of", "full analysis",
             "detailed analysis", "analyze multiple", "compare and analyze"].any
              fun p => strIncludes mc p)

/-- `OrchestrationAgent.can_handle`. -/
def orchCanHandle (s : StateD) : Bool :=
  if s.context.orchestrated_workflow then true
  else if detectComplexWorkflow s then true
  else if s.next_agent == some "orchestration_agent" then true
  else s.workflow_type == "complex_analysis" || s.workflow_type == "multi_agent_workflow"

/-- `LangGraphMultiAgentEngine._routing_decision` : fixed-priority initial
routing. -/
def routingDecision (s : StateD) : String :=
  if orchCanHandle s then "orchestration"
  else if pdbCanHandle s then "pdb_search"
  else if molCanHandle s then "molecular_analysis"
  else "conversation"

/-- The keys of `LangGraphMultiAgentEngine.agents`. -/
def knownAgents : List String :=
  ["conversation_agent", "molecular_analysis_agent", "pdb_search_agent",
   "orchestration_agent"]

/-- `LangGraphMultiAgentEngine._post_agent_routing`.  The inner `if/elif`
chain has no `else`, so a `next_agent` that is known but not one of the
three named ids falls through to the `completed_at` / default branches
(both of which return `"finalize"`, the redundancy kept from the source). -/
def postAgentRouting (s : StateD) : String :=
  if optStrTruthy s.error_state then "finalize"
  else
    let viaNext : Option String :=
      match s.next_agent with
      | some n =>
        if !n.isEmpty && knownAgents.contains n then
          if n == "conversation_agent" then some "conversation"
          else if n == "pdb_search_agent" then some "pdb_search"
          else if n == "molecular_analysis_agent" then some "molecular_analysis"
          else none
        else none
      | none => none
    match viaNext with
    | some r => r
    | none => if s.completed_at.isSome then "finalize" else "finalize"

/-! ## External collaborators

Fallible external services, passed explicitly (LLM, structure database,
analysis computation).  An `Except.error` models a raised exception. -/

/-- The collaborator oracle. -/
structure Collab where
  llm : List Msg → Except String String
  searchById : String → Except String SearchRecord
  searchByKeyword : String → Except String KeywordRecord
  engineInit : Except String Unit := Except.ok ()
  analyze : String → String → String → Except String AnalysisBag

/-! ## Conversation agent (conversation_agent.py) -/

/-- `_extract_user_message`. -/
def extractUserMessage (s : StateD) : String :=
  if optStrTruthy s.parameters.message then s.parameters.message.getD ""
  else
    match lastHumanContent s with
    | some c => c
    | none => s.parameters.query.getD "Hello"

/-- The 39-name `common_proteins` vocabulary of `_analyze_intent`
(identical to the keys of the search agent's mapping table). -/
def commonProteins : List String := proteinMappings.map Prod.fst

/-- `_get_protein_variations` : common typos and variations per protein. -/
def proteinVariations (p : String) : List String :=
  match assocGet
    [("hemoglobin", ["hamoglobin", "haemoglobin", "hemogoblin", "hemoglobn"]),
     ("insulin", ["insuline", "insuln"]),
     ("lysozyme", ["lysozym", "lysozime"]),
     ("myoglobin", ["myogloblin", "myoglobn"]),
     ("cytochrome c", ["cytochrome", "cytocrome"]),
     ("collagen", ["collagene", "colagen"]),
     ("albumin", ["albumen"]),
     ("immunoglobulin", ["immunogloblin"]),
     ("ferritin", ["ferittin"]),
     ("catalase", ["catalaze"]),
     ("chymotrypsin", ["chymotripsin"]),
     ("trypsin", ["tripsin"]),
     ("ribonuclease", ["ribonuclease", "rnase"])] p with
  | some vs => vs
  | none => []

/-- The protein-detection loop of `_analyze_intent` : exact name match on
the lowered message, else a variation match (appending the correct name,
not the typo, at most once). -/
def foundProteinsIn (ml : String) : List String :=
  commonProteins.foldl
    (fun acc p =>
      if strIncludes ml p then acc ++ [p]
      else if (proteinVariations p).any
          (fun v => strIncludes ml v && !acc.contains v) then acc ++ [p]
      else acc)
    []

/-- `_analyze_intent` (conversation agent). -/
def analyzeIntent (userMessage : String) : IntentAnalysis :=
  let ml := lowerStr userMessage
  let pdbIdMatches := findallPdbBounded userMessage.data
  let ind1 := pdbIdMatches
  let ind2 :=
    if searchDisplayStructure userMessage || searchPdbWord userMessage then
      ind1 ++ ["structure_display_request"]
    else ind1
  let foundProteins := foundProteinsIn ml
  let pdbIndicators :=
    if !foundProteins.isEmpty then
      let hasStructureContext :=
        ["structure", "show", "display", "view", "load", "protein", "molecular",
         "pdb", "visualization", "molecule", "what", "tell me about"].any
          fun k => strIncludes ml k
      if hasStructureContext then
        let ext := ind2 ++ foundProteins
        if !ext.any (fun i => strIncludes i "structure_display_request") then
          ext ++ ["structure_display_request"]
        else ext
      else ind2 ++ foundProteins ++ ["protein_mention"]
    else ind2
  let intent1 := if !pdbIndicators.isEmpty then "structure_request" else "conversation"
  let analysisKeywords :=
    ["analyze", "analysis", "binding", "active site", "secondary structure",
     "hydrogen bonds", "molecular weight", "properties", "sequence", "cavity",
     "hydrophobic"] ++ (if pdbIndicators.isEmpty then ["structure"] else [])
  let foundAnalysis := analysisKeywords.filter fun k => strIncludes ml k
  let intent2 :=
    if !foundAnalysis.isEmpty && intent1 == "conversation" then "analysis_request"
    else intent1
  { primary_intent := intent2
    confidence_pct := 80
    entities := []
    keywords := (splitWs ml).filter fun w =>
      w.data.length > 3 && !(["the", "and", "for", "with"].contains w)
    dip := pdbIndicators
    dim := foundAnalysis }

/-- `_check_domain_routing`. -/
def checkDomainRouting (ia : IntentAnalysis) : RoutingDec :=
  if !ia.dip.isEmpty then
    { should_route := true, target_agent := some "pdb_search_agent",
      reason := "PDB structure request detected", confidence_pct := 90 }
  else if !ia.dim.isEmpty then
    { should_route := true, target_agent := some "molecular_analysis_agent",
      reason := "Molecular analysis request detected", confidence_pct := 80 }
  else
    { should_route := false, target_agent := none, reason := "", confidence_pct := 0 }

/-- The BioAI system prompt (prose abbreviated; its content is never
inspected by the engine). -/
def systemPromptText : String :=
  "You are BioAI, an expert AI assistant specialized in molecular biology, biochemistry, and protein analysis."

/-- The fixed fallback reply used when the text-completion collaborator fails. -/
def fallbackText : String :=
  "I'm BioAI, your molecular analysis assistant! I can help you with protein analysis, PDB database searches, and molecular structure comparisons. How can I assist you today?"

/-- `_generate_response` : LLM call over the system prompt plus a bounded
window of recent turns (last 4), degrading to the fixed fallback. -/
def generateResponse (c : Collab) (user : String) (s : StateD) : AIResp :=
  let msgs :=
    if s.messages.length > 1 then
      ⟨Role.system, systemPromptText⟩
        :: (s.messages.drop (s.messages.length - 4) ++ [⟨Role.human, user⟩])
    else [⟨Role.system, systemPromptText⟩, ⟨Role.human, user⟩]
  match c.llm msgs with
  | Except.ok content =>
    { content := content, rtype := "conversation", tokens_used := content.length / 4 }
  | Except.error e =>
    { content := fallbackText, rtype := "fallback", meta_error := some e }

/-- `ConversationAgent.execute`.  The internal failure paths (LLM errors)
are handled inside `_generate_response`, so the embedded execute is total;
the outer `try/except` of the source is represented at the node boundary
(`nodeGuard` below). -/
def conversationExecute (c : Collab) (now : Nat) (s : StateD) : StateD :=
  let user := extractUserMessage s
  let ia := analyzeIntent user
  let dr := checkDomainRouting ia
  if dr.should_route then
    { s with
      current_agent := optToStr dr.target_agent
      next_agent := dr.target_agent
      agent_handoffs := s.agent_handoffs
        ++ [{ from_agent := "conversation_agent", to_agent := optToStr dr.target_agent,
              reason := dr.reason, timestamp := now }]
      context := { s.context with intent_analysis := some ia, routing_decision := some dr } }
  else
    let resp := generateResponse c user s
    { s with
      messages := s.messages ++ [⟨Role.ai, resp.content⟩]
      current_agent := "conversation_agent"
      context := { s.context with intent_analysis := some ia, ai_response := some resp }
      completed_at := some now }

/-! ## PDB search agent (pdb_search_agent.py) -/

/-- `_extract_search_parameters` output. -/
structure SearchParams where
  pdb_ids : List String
  protein_names : List String
  keywords : List String
  search_type : String
deriving DecidableEq, Repr

/-- `_extract_search_parameters`. -/
def extractSearchParameters (s : StateD) : SearchParams :=
  { pdb_ids := detectPdbRequests s
    protein_names := detectProteinNames s
    keywords := if optStrTruthy s.parameters.query then [s.parameters.query.getD ""] else []
    search_type :=
      if optStrTruthy s.parameters.search_type then s.parameters.search_type.getD ""
      else "mixed" }

/-- Intermediate shape of `_perform_searches`. -/
structure RawSearches where
  pdb_searches : List SearchRecord
  protein_searches : List SearchRecord
  keyword_searches : List KeywordRecord
  total_found : Nat
deriving DecidableEq, Repr

/-- `_perform_searches` : each collaborator call has its own
`try/except` (an exception skips that one search). -/
def performSearches (c : Collab) (p : SearchParams) : RawSearches :=
  let step1 := p.pdb_ids.foldl
    (fun (acc : List SearchRecord × Nat) pid =>
      match c.searchById pid with
      | Except.ok r => if r.status == "success" then (acc.1 ++ [r], acc.2 + 1) else acc
      | Except.error _ => acc)
    ([], 0)
  let step2 := p.protein_names.foldl
    (fun (acc : List SearchRecord × Nat) pn =>
      match assocGet proteinMappings pn with
      | some pid =>
        match c.searchById pid with
        | Except.ok r =>
          if r.status == "success" then (acc.1 ++ [{ r with protein_name := some pn }], acc.2 + 1)
          else acc
        | Except.error _ => acc
      | none => acc)
    ([], step1.2)
  let step3 := p.keywords.foldl
    (fun (acc : List KeywordRecord × Nat) kw =>
      if !kw.isEmpty && !isPdbIdStr kw then
        match c.searchByKeyword kw with
        | Except.ok r =>
          if r.status == "success" then
            (acc.1 ++ [r], acc.2 + (match r.results with | some l => l.length | none => 1))
          else acc
        | Except.error _ => acc
      else acc)
    ([], step2.2)
  { pdb_searches := step1.1, protein_searches := step2.1,
    keyword_searches := step3.1, total_found := step3.2 }

/-- `_extract_structure_info`. -/
def extractStructureInfo (r : SearchRecord) : StructInfo :=
  { pdb_id := r.pdb_id
    title := r.title.getD ""
    resolution := r.resolution
    experiment_type := r.experiment_type.getD ""
    organism := r.organism
    release_date := r.release_date
    molecular_weight := r.molecular_weight
    structure_url :=
      if optStrTruthy r.pdb_id then
        some ("https://files.rcsb.org/download/" ++ r.pdb_id.getD "" ++ ".pdb")
      else none }

/-- `_create_visualization_action`. -/
def createVisualizationAction (r : SearchRecord) (searchType : String) (s : StateD)
    (now : Nat) : VizAction :=
  let pid := r.pdb_id
  let pn := r.protein_name
  let description :=
    if optStrTruthy pn && searchType == "protein_search" then
      "Load and display " ++ optToStr pn ++ " structure (PDB: " ++ optToStr pid ++ ")"
    else "Load and display PDB structure " ++ optToStr pid
  { id := "pdb_action_" ++ optToStr pid ++ "_" ++ toString now
    type := "structure_visualization"
    description := description
    result :=
      { pdb_id := pid
        structure_url := "https://files.rcsb.org/download/" ++ optToStr pid ++ ".pdb"
        title := r.title.getD ""
        resolution := r.resolution
        experiment_type := r.experiment_type.getD ""
        organism := r.organism
        search_type := searchType
        protein_name := pn }
    timestamp := now * 1000
    duration := 0
    success := true
    meta_source := "pdb_search_agent"
    meta_pdb_id := pid
    meta_protein_name := pn
    meta_workflow_id := s.workflow_id }

/-- `_process_search_results`. -/
def processSearchResults (raw : RawSearches) (s : StateD) (now : Nat) : ProcessedResults :=
  let fromPdb := raw.pdb_searches.map fun r =>
    (extractStructureInfo r, createVisualizationAction r "pdb_search" s now)
  let fromProt := raw.protein_searches.map fun r =>
    ({ extractStructureInfo r with protein_name := r.protein_name },
     createVisualizationAction r "protein_search" s now)
  { structures_found := (fromPdb ++ fromProt).map Prod.fst
    actions := (fromPdb ++ fromProt).map Prod.snd
    total_searches := raw.pdb_searches.length + raw.protein_searches.length
    total_found := raw.total_found
    search_timestamp := now }

/-- `_extract_molecular_data`, merged over the previous bag as
`{**state.molecular_data, **extracted}`. -/
def mergeMolecularFromSearch (md : MolecularData) (p : ProcessedResults) : MolecularData :=
  match p.structures_found with
  | [] => md
  | primary :: rest =>
    let md1 := { md with
      pdb_id := primary.pdb_id
      structure_url := primary.structure_url
      structure_metadata := some primary }
    if rest.isEmpty then md1
    else { md1 with all_structures := some p.structures_found }

/-- `_generate_response_message` (decorative emoji glyphs omitted; the
text itself is never inspected downstream). -/
def generateResponseMessage (p : ProcessedResults) : String :=
  match p.structures_found with
  | [] =>
    "No structures found matching your search criteria. Please check the PDB ID or try different keywords."
  | [st] =>
    let details :=
      (if optStrTruthy st.resolution then ["Resolution: " ++ optToStr st.resolution ++ "A"] else [])
        ++ (if !st.experiment_type.isEmpty then ["Method: " ++ st.experiment_type] else [])
        ++ (if !st.organism.isEmpty then
            ["Organism: " ++ String.intercalate ", " (st.organism.take 2)
              ++ (if st.organism.length > 2 then "..." else "")]
          else [])
    "**Structure Found: " ++ optToStr st.pdb_id ++ "**\n\n**" ++ st.title ++ "**\n\n"
      ++ (if details.isEmpty then "" else String.intercalate " | " details ++ "\n\n")
      ++ "The 3D structure has been loaded in the viewer!"
  | sts =>
    "**" ++ toString sts.length ++ " Structures Found**\n\n"
      ++ String.join ((sts.take 3).map fun st =>
          "**" ++ optToStr st.pdb_id ++ "**: " ++ String.mk (st.title.data.take 80)
            ++ (if st.title.data.length > 80 then "..." else "") ++ "\n")
      ++ (if sts.length > 3 then "\n... and " ++ toString (sts.length - 3) ++ " more structures\n" else "")
      ++ "\nAll structures have been loaded in the viewer!"

/-- `PDBSearchAgent._determine_next_agent`. -/
def determineNextAgentPdb (p : ProcessedResults) (s : StateD) : Option String :=
  if !p.structures_found.isEmpty then
    let fromMsg :=
      match lastHumanContent s with
      | some c =>
        ["analyze", "analysis", "binding", "active site", "properties"].any
          fun k => strIncludes (lowerStr c) k
      | none => false
    if fromMsg then some "molecular_analysis_agent"
    else
      match s.context.intent_analysis with
      | some ia =>
        if ia.primary_intent == "analysis_request" then some "molecular_analysis_agent" else none
      | none => none
  else none

/-- `PDBSearchAgent.execute`.  An exception from the search-engine
construction (the only unguarded raising point, modelled by
`Collab.engineInit`) is caught by the agent's own `except` branch; the
`finally` clause only closes the HTTP session and has no state effect. -/
def pdbExecute (c : Collab) (now : Nat) (s : StateD) : StateD :=
  match c.engineInit with
  | Except.error e =>
    { s with
      error_state := some ("PDB search failed: " ++ e)
      current_agent := "pdb_search_agent"
      messages := s.messages ++ [⟨Role.ai, "PDB search failed: " ++ e⟩] }
  | Except.ok _ =>
    let params := extractSearchParameters s
    let raw := performSearches c params
    let processed := processSearchResults raw s now
    let respMsg := generateResponseMessage processed
    { s with
      messages := s.messages ++ [⟨Role.ai, respMsg⟩]
      current_agent := "pdb_search_agent"
      search_results := assocSet s.search_results "pdb_search_agent" (SearchVal.processed processed)
      molecular_data := mergeMolecularFromSearch s.molecular_data processed
      visualization_commands := s.visualization_commands ++ processed.actions
      completed_at := some now
      next_agent := determineNextAgentPdb processed s }

/-! ## Molecular analysis agent (molecular_analysis_agent.py) -/

/-- `_prepare_analysis_config`. -/
def prepareAnalysisConfig (s : StateD) : AnalysisConfig :=
  let sdPair : Option String × String :=
    if optStrTruthy s.molecular_data.structure_data then
      (s.molecular_data.structure_data,
       match s.molecular_data.structure_id with | some x => x | none => "from_state")
    else if optStrTruthy s.molecular_data.pdb_data then
      (s.molecular_data.pdb_data,
       match s.molecular_data.pdb_id with | some x => x | none => "from_pdb")
    else if optStrTruthy s.parameters.structure_data then
      (s.parameters.structure_data,
       match s.parameters.structure_id with | some x => x | none => "from_params")
    else (none, "unknown")
  let analysisType :=
    if optStrTruthy s.parameters.analysis_type then s.parameters.analysis_type.getD ""
    else if optStrTruthy s.context.analysis_request then
      let req := s.context.analysis_request.getD ""
      if strIncludes req "basic" then "basic"
      else if strIncludes req "comprehensive" then "comprehensive"
      else "comprehensive"
    else "comprehensive"
  let requested :=
    match lastHumanContent s with
    | some c =>
      let mc := lowerStr c
      [("secondary structure", "secondary_structure"),
       ("hydrogen bond", "hydrogen_bonds"),
       ("binding site", "binding_sites"),
       ("hydrophobic", "hydrophobic_contacts"),
       ("sequence", "sequence_analysis"),
       ("molecular weight", "molecular_properties")].foldl
        (fun acc kv => if strIncludes mc kv.1 then acc ++ [kv.2] else acc) []
    | none => []
  { analysis_type := analysisType
    structure_data := sdPair.1
    structure_id := sdPair.2
    requested_analyses := requested }

/-- Render a `search_results` dict value where the source reads it as a raw
payload (`search_results["pdb_data"]` / `.get("pdb_id")`) — keys this
system itself never writes. -/
def searchValAsStr : SearchVal → String
  | SearchVal.raw s => s
  | SearchVal.processed _ => ""

/-- `_perform_analysis` : resolves the structure payload (state, then the
`search_results["pdb_data"]` fallback), raising
`ValueError("No structure data available for analysis")` when absent, then
delegates to the analysis collaborator and stamps `agent_metadata`. -/
def performAnalysis (c : Collab) (config : AnalysisConfig) (s : StateD)
    (now : Nat) : Except String AnalysisBag :=
  let resolved : Except String AnalysisConfig :=
    if !optStrTruthy config.structure_data then
      if !s.search_results.isEmpty && (assocGet s.search_results "pdb_data").isSome then
        Except.ok { config with
          structure_data :=
            some (searchValAsStr ((assocGet s.search_results "pdb_data").getD (SearchVal.raw "")))
          structure_id :=
            match assocGet s.search_results "pdb_id" with
            | some v => searchValAsStr v
            | none => "from_search" }
      else Except.error "No structure data available for analysis"
    else Except.ok config
  match resolved with
  | Except.error e => Except.error e
  | Except.ok cfg =>
    match c.analyze (cfg.structure_data.getD "") cfg.structure_id cfg.analysis_type with
    | Except.error e => Except.error e
    | Except.ok bag =>
      Except.ok { bag with
        agent_metadata := some
          { agent_id := "molecular_analysis_agent", analysis_config := cfg, timestamp := now } }

/-- Fixed-point rendering used for the summary's `:.1f` figures
(values scaled to tenths). -/
def fmtTenth (n : Nat) : String := toString (n / 10) ++ "." ++ toString (n % 10)

/-- `_generate_analysis_summary` : each result section is optional and
independently rendered. -/
def generateAnalysisSummary (r : AnalysisBag) : AnalysisSummary :=
  if r.status == some "failed" then
    { description := "Analysis failed: " ++ (match r.error with | some e => e | none => "Unknown error")
      key_findings := []
      recommendations := ["Please check the structure data and try again."] }
  else
    let kf1 :=
      match r.basic_properties with
      | some props =>
        ["Structure contains " ++ toString props.chain_count ++ " chains with "
          ++ toString props.total_residues ++ " residues and "
          ++ toString props.total_atoms ++ " atoms."]
          ++ (match props.dimensions with
            | some (x, y, z) =>
              ["Structure dimensions: " ++ fmtTenth x ++ " x " ++ fmtTenth y
                ++ " x " ++ fmtTenth z ++ " A"]
            | none => [])
      | none => []
    let kf2 :=
      match r.secondary_structure with
      | some chains =>
        chains.foldl
          (fun acc cv =>
            let t := cv.2.alpha_helix + cv.2.beta_sheet + cv.2.coil
            if t > 0 then
              acc ++ ["Chain " ++ cv.1 ++ ": " ++ fmtTenth (cv.2.alpha_helix * 1000 / t)
                ++ "% alpha-helix, " ++ fmtTenth (cv.2.beta_sheet * 1000 / t) ++ "% beta-sheet"]
            else acc)
          []
      | none => []
    let kf3 :=
      match r.hydrogen_bonds with
      | some h => ["Found " ++ toString h.total_potential_bonds ++ " potential hydrogen bonds"]
      | none => []
    let kf4 :=
      match r.sequence_analysis with
      | some seqs =>
        seqs.foldl
          (fun acc cv =>
            match cv.2.molecular_weight with
            | some mw =>
              acc ++ ["Chain " ++ cv.1 ++ ": " ++ toString cv.2.length ++ " residues, "
                ++ fmtTenth (mw * 10) ++ " Da"]
            | none => acc)
          []
      | none => []
    let bsPair :=
      match r.binding_sites with
      | some sites =>
        if !sites.isEmpty then
          (["Identified " ++ toString sites.length ++ " potential binding sites"],
           ["Consider further validation of predicted binding sites"])
        else ([], [])
      | none => ([], [])
    let rec2 :=
      if r.analysis_type == some "basic" then ["Run comprehensive analysis for detailed insights"]
      else []
    { description := "Molecular analysis completed successfully."
      key_findings := kf1 ++ kf2 ++ kf3 ++ kf4 ++ bsPair.1
      recommendations := bsPair.2 ++ rec2 }

/-- `MolecularAnalysisAgent._determine_next_agent`. -/
def determineNextAgentMol (bag : AnalysisBag) (s : StateD) : Option String :=
  if (match bag.binding_sites with | some sites => !sites.isEmpty | none => false) then
    some "visualization_agent"
  else if s.context.orchestrated_workflow then some "orchestration_agent"
  else if s.context.comparison_request then some "structure_comparison_agent"
  else none

/-- `MolecularAnalysisAgent.execute` : the `except` branch converts a raise
from `_perform_analysis` (missing payload, analyzer failure) into
`error_state` without touching `completed_at` or the visualization list. -/
def molecularExecute (c : Collab) (now : Nat) (s : StateD) : StateD :=
  let config := prepareAnalysisConfig s
  match performAnalysis c config s now with
  | Except.error e =>
    { s with
      error_state := some ("Molecular analysis failed: " ++ e)
      current_agent := "molecular_analysis_agent"
      messages := s.messages ++ [⟨Role.ai, "Analysis failed: " ++ e⟩] }
  | Except.ok bag =>
    let summary := generateAnalysisSummary bag
    { s with
      messages := s.messages
        ++ [⟨Role.ai, "Molecular analysis completed. " ++ summary.description⟩]
      current_agent := "molecular_analysis_agent"
      analysis_results := assocSet s.analysis_results "molecular_analysis_agent" (AnalysisVal.bag bag)
      molecular_data := { s.molecular_data with
        latest_analysis := some bag
        analysis_summary := some summary }
      completed_at := some now
      next_agent := determineNextAgentMol bag s }

/-! ## Orchestration agent (orchestration_agent.py) -/

/-- `_match_predefined_workflow` : first workflow whose trigger phrase
occurs in the lowered last human message. -/
def matchPredefinedWorkflow (s : StateD) : Option WorkflowPlan :=
  match lastHumanContent s with
  | none => none
  | some content =>
    let mc := lowerStr content
    workflowDefinitions.findSome? fun wd =>
      if wd.2.2.2.any (fun t => strIncludes mc t) then
        some { workflow_type := wd.1, description := wd.2.1, steps := wd.2.2.1 }
      else none

/-- `_needs_pdb_search`. -/
def needsPdbSearch (s : StateD) : Bool :=
  match lastHumanContent s with
  | some content =>
    let mc := lowerStr content
    !(findallPdbBounded (upperStr mc).data).isEmpty
      || (["structure", "protein", "pdb", "show", "display", "load"].any
          fun k => strIncludes mc k)
  | none => false

/-- `_needs_molecular_analysis`. -/
def needsMolecularAnalysis (s : StateD) : Bool :=
  match lastHumanContent s with
  | some content =>
    ["analyze", "analysis", "binding", "active site", "properties",
     "secondary structure", "hydrogen bonds", "molecular weight"].any
      fun k => strIncludes (lowerStr content) k
  | none => false

/-- `_create_custom_workflow`. -/
def createCustomWorkflow (s : StateD) : WorkflowPlan :=
  let steps :=
    (if s.context.intent_analysis.isSome then []
     else [({ agent := "conversation_agent", purpose := some "intent_analysis" } : PlanStep)])
      ++ (if needsPdbSearch s then
          [({ agent := "pdb_search_agent", purpose := some "structure_retrieval" } : PlanStep)]
        else [])
      ++ (if needsMolecularAnalysis s then
          [({ agent := "molecular_analysis_agent", purpose := some "structure_analysis" } : PlanStep)]
        else [])
      ++ [({ agent := "conversation_agent", purpose := some "result_presentation" } : PlanStep)]
  { workflow_type := "custom"
    description := "Custom workflow based on request analysis"
    steps := steps }

/-- `_plan_workflow` (the unread `parallel_groups` / `estimated_duration`
bookkeeping fields carry constants and are omitted). -/
def planWorkflow (s : StateD) : WorkflowPlan :=
  match matchPredefinedWorkflow s with
  | some p => p
  | none => createCustomWorkflow s

/-- `_extract_key_data` on a step's resulting state. -/
def extractKeyData (r : StateD) (agentType : String) : KeyData :=
  if agentType == "pdb_search_agent" then
    let structures :=
      match assocGet r.search_results agentType with
      | some (SearchVal.processed p) => p.structures_found
      | _ => []
    KeyData.pdbK structures.length
      ((structures.filter fun st => optStrTruthy st.pdb_id).map fun st => optToStr st.pdb_id)
  else if agentType == "molecular_analysis_agent" then
    match assocGet r.analysis_results agentType with
    | some (AnalysisVal.bag b) =>
      KeyData.molK b.analysis_type b.structure_id b.status
        (match b.basic_properties with
         | some props => some (props.chain_count, props.total_residues, props.total_atoms)
         | none => none)
    | _ => KeyData.molK none none none none
  else if agentType == "conversation_agent" then
    KeyData.convK (!r.messages.isEmpty) r.context.intent_analysis.isSome
  else KeyData.other

/-- `agent_registry.get_agent` restricted to the agents a plan step can
name (the registry also holds the orchestration agent itself, but no plan
ever lists it as a step, which keeps the embedding non-recursive);
`structure_comparison_agent` is not registered, raising
`Agent not found` inside the step's `try`. -/
def stepAgentExecute : String → Option (Collab → Nat → StateD → StateD)
  | "conversation_agent" => some conversationExecute
  | "pdb_search_agent" => some pdbExecute
  | "molecular_analysis_agent" => some molecularExecute
  | _ => none

/-- The step agent's `can_handle` (same registry restriction). -/
def stepAgentCanHandle : String → Option (StateD → Bool)
  | "conversation_agent" => some convCanHandle
  | "pdb_search_agent" => some pdbCanHandle
  | "molecular_analysis_agent" => some molCanHandle
  | _ => none

/-- `_execute_workflow` : sequential step loop; a step whose agent rejects
the state is skipped without a record; a missing agent is recorded as a
failed step; a step's failure does not abort the remaining plan.  The
source stores each step's full resulting state under `result`; its only
later consumer (`_extract_key_data`) is applied at recording time instead
(`key_data`). -/
def executePlan (c : Collab) (now : Nat) (steps : List PlanStep) (s0 : StateD) :
    List StepRes × StateD :=
  go steps 0 s0 []
where
  go : List PlanStep → Nat → StateD → List StepRes → List StepRes × StateD
    | [], _, cur, acc => (acc, cur)
    | st :: rest, i, cur, acc =>
      match stepAgentExecute st.agent, stepAgentCanHandle st.agent with
      | some ex, some ch =>
        if !ch cur then go rest (i + 1) cur acc
        else
          let res := ex c now cur
          let rec1 : StepRes :=
            { step := i + 1, agent := st.agent, purpose := st.purpose, duration := 0,
              success := !optStrTruthy res.error_state, timestamp := now,
              key_data := some (extractKeyData res st.agent) }
          go rest (i + 1) res (acc ++ [rec1])
      | _, _ =>
        let rec1 : StepRes :=
          { step := i + 1, agent := st.agent, purpose := st.purpose, duration := 0,
            success := false, error := some ("Agent not found: " ++ st.agent),
            timestamp := now }
        go rest (i + 1) cur (acc ++ [rec1])

/-- `_aggregate_results` (`list(set(...))` embedded as first-occurrence
deduplication, as elsewhere). -/
def aggregateResults (rs : List StepRes) : Aggregated :=
  { total_steps := rs.length
    successful_steps := (rs.filter fun r => r.success).length
    failed_steps := (rs.filter fun r => !r.success).length
    total_duration := rs.foldl (fun a r => a + r.duration) 0
    agents_involved := dedupFirst (rs.map fun r => r.agent)
    workflow_success := rs.all fun r => r.success
    results_by_agent := rs.foldl
      (fun acc r =>
        if r.success then
          match r.key_data with
          | some kd => assocSet acc r.agent (r.duration, kd)
          | none => acc
        else acc)
      [] }

/-- `duration:.2f` rendering (durations are whole clock units here). -/
def fmtSec2 (n : Nat) : String := toString n ++ ".00"

/-- `_generate_workflow_summary` (decorative glyphs omitted). -/
def generateWorkflowSummary (rs : List StepRes) (plan : WorkflowPlan) : String :=
  let successful := (rs.filter fun r => r.success).length
  let total := rs.length
  let totalDuration := rs.foldl (fun a r => a + r.duration) 0
  if successful == total then
    let agentsInvolved := dedupFirst ((rs.filter fun r => r.success).map fun r => r.agent)
    "**Workflow Completed Successfully**\n\n**" ++ plan.description
      ++ "**\n\n**Execution Summary:**\n"
      ++ "- Steps completed: " ++ toString successful ++ "/" ++ toString total ++ "\n"
      ++ "- Total duration: " ++ fmtSec2 totalDuration ++ " seconds\n"
      ++ "- Agents involved: " ++ toString (dedupFirst (rs.map fun r => r.agent)).length ++ "\n\n"
      ++ (if agentsInvolved.contains "pdb_search_agent" then "Structure search completed\n" else "")
      ++ (if agentsInvolved.contains "molecular_analysis_agent" then "Molecular analysis completed\n" else "")
      ++ "\nAll workflow components executed successfully!"
  else
    "**Workflow Partially Completed**\n\n**" ++ plan.description
      ++ "**\n\n**Execution Summary:**\n"
      ++ "- Steps completed: " ++ toString successful ++ "/" ++ toString total ++ "\n"
      ++ "- Failed steps: " ++ toString (total - successful) ++ "\n"
      ++ "- Total duration: " ++ fmtSec2 totalDuration ++ " seconds\n\n"
      ++ (let failed := rs.filter fun r => !r.success
        if failed.isEmpty then ""
        else "**Failed Steps:**\n" ++ String.join (failed.map fun f =>
          "- Step " ++ toString f.step ++ ": " ++ f.agent ++ " - "
            ++ (match f.error with | some e => e | none => "Unknown error") ++ "\n"))

/-- `OrchestrationAgent.execute` : plans, runs the internal sequential
loop, and overlays only messages / context / analysis_results over the
*original* state (the per-step states are dropped apart from the recorded
results). -/
def orchestrationExecute (c : Collab) (now : Nat) (s : StateD) : StateD :=
  let plan := planWorkflow s
  let stepsOut := executePlan c now plan.steps s
  let agg := aggregateResults stepsOut.1
  let summary := generateWorkflowSummary stepsOut.1 plan
  { s with
    messages := s.messages ++ [⟨Role.ai, summary⟩]
    current_agent := "orchestration_agent"
    context := { s.context with
      orchestrated_workflow := true
      workflow_plan := some plan
      workflow_results := some stepsOut.1 }
    analysis_results := assocSet s.analysis_results "orchestration_summary"
      (AnalysisVal.orchSummary agg)
    completed_at := some now }

/-! ## Graph engine (langgraph_multi_agent_engine.py) -/

/-- The engine's per-node `try/except` (lines 176–218): a normal result is
passed through; a raised exception is converted into an `error_state`
prefixed with the agent's name, and the node returns normally. -/
def nodeGuard (pre : String) (s : StateD) (r : Except String StateD) : StateD :=
  match r with
  | Except.ok v => v
  | Except.error e => { s with error_state := some (pre ++ e) }

/-- `_route_request_node`. -/
def routeRequestNode (s : StateD) : StateD := { s with current_agent := "route_request" }

/-- `ConversationAgent.execute` at the node boundary.  Every internal
failure path of the embedded execute is handled inside it, so the raising
computation is always `ok`; `nodeGuard` still embeds the engine's catch. -/
def conversationExecuteE (c : Collab) (now : Nat) (s : StateD) : Except String StateD :=
  Except.ok (conversationExecute c now s)

/-- `_conversation_agent_node`. -/
def conversationAgentNode (c : Collab) (now : Nat) (s : StateD) : StateD :=
  nodeGuard "Conversation agent failed: " s (conversationExecuteE c now s)

/-- `PDBSearchAgent.execute` at the node boundary (total for the same
reason: its raising points are caught inside `execute`). -/
def pdbExecuteE (c : Collab) (now : Nat) (s : StateD) : Except String StateD :=
  Except.ok (pdbExecute c now s)

/-- `_pdb_search_agent_node`. -/
def pdbAgentNode (c : Collab) (now : Nat) (s : StateD) : StateD :=
  nodeGuard "PDB search agent failed: " s (pdbExecuteE c now s)

/-- `MolecularAnalysisAgent.execute` at the node boundary. -/
def molecularExecuteE (c : Collab) (now : Nat) (s : StateD) : Except String StateD :=
  Except.ok (molecularExecute c now s)

/-- `_molecular_analysis_agent_node`. -/
def molecularAgentNode (c : Collab) (now : Nat) (s : StateD) : StateD :=
  nodeGuard "Molecular analysis agent failed: " s (molecularExecuteE c now s)

/-- `OrchestrationAgent.execute` at the node boundary. -/
def orchestrationExecuteE (c : Collab) (now : Nat) (s : StateD) : Except String StateD :=
  Except.ok (orchestrationExecute c now s)

/-- `_orchestration_agent_node`. -/
def orchestrationAgentNode (c : Collab) (now : Nat) (s : StateD) : StateD :=
  nodeGuard "Orchestration agent failed: " s (orchestrationExecuteE c now s)

/-- `_finalize_response_node` : stamps `completed_at` only when unset. -/
def finalizeNode (now : Nat) (s : StateD) : StateD :=
  let s1 := if s.completed_at.isNone then { s with completed_at := some now } else s
  { s1 with current_agent := "finalize_response" }

/-- Dispatch of a routing label to its agent node. -/
def realNodes (c : Collab) (label : String) (now : Nat) (s : StateD) : StateD :=
  if label == "conversation" then conversationAgentNode c now s
  else if label == "pdb_search" then pdbAgentNode c now s
  else if label == "molecular_analysis" then molecularAgentNode c now s
  else if label == "orchestration" then orchestrationAgentNode c now s
  else s

/-- The compiled graph's agent loop, parametric in the node map so that the
hand-off behaviour can be studied for arbitrary agents: run the node for
`label`, then follow `_post_agent_routing`, ticking the clock per node.
`fuel` bounds the unrolling only (LangGraph itself imposes no hop cap in
this code); the trace lists each executed node with its resulting state. -/
def runLoop (nodes : String → Nat → StateD → StateD) :
    Nat → String → Nat → StateD → List (String × StateD)
  | 0, _, _, _ => []
  | fuel + 1, label, now, s =>
    if label == "finalize" then [("finalize_response", finalizeNode now s)]
    else if label == "end" then []
    else
      let s' := nodes label now s
      (label, s') :: runLoop nodes fuel (postAgentRouting s') (now + 1) s'

/-- One whole graph invocation: entry node, initial routing, agent loop. -/
def runWorkflow (c : Collab) (fuel : Nat) (s0 : StateD) : List (String × StateD) :=
  let s1 := routeRequestNode s0
  ("route_request", s1) :: runLoop (realNodes c) fuel (routingDecision s1) 1 s1

/-- `_create_initial_state` (caller-supplied message dicts with roles other
than user/assistant are dropped, as in the conversion loop). -/
def createInitialState (workflowType : String) (params : Params) (workflowId : String)
    (now : Nat) : StateD :=
  let msgs :=
    if optStrTruthy params.message then [⟨Role.human, params.message.getD ""⟩]
    else
      match params.messages with
      | some ms =>
        if !ms.isEmpty then ms.filter (fun m => m.role == Role.human || m.role == Role.ai)
        else []
      | none => []
  { messages := msgs
    workflow_id := workflowId
    workflow_type := workflowType
    parameters := params
    started_at := some now
    context := match params.context with | some ctx => ctx | none => {} }

/-! ## Result projector (`_process_final_result` and friends) -/

/-- `newContext` of the response: the error marker or the four state bags. -/
inductive NewContext
  | errCtx (error : String)
  | okCtx (conversation_context : Ctx) (molecular_data : MolecularData)
      (search_results : List (String × SearchVal))
      (analysis_results : List (String × AnalysisVal))
deriving DecidableEq, Repr

/-- Response `metadata` (confidence scaled to hundredths). -/
structure RespMeta where
  tokensUsed : Nat
  duration : Nat
  toolsInvoked : List String
  confidence_pct : Nat
  sources : List String
  error : Option String := none
  agents_involved : Option Nat := none
deriving DecidableEq, Repr

/-- The external response shape of `execute_workflow`. -/
structure WorkflowResp where
  workflowId : String
  response : String
  actions : List VizAction
  newContext : NewContext
  suggestedFollowUps : List String
  metadata : RespMeta
  status : String
deriving DecidableEq, Repr

/-- The structure list collected by `_generate_followups` : every
`structures_found` entry across the `search_results` values. -/
def resolvedStructures (fs : StateD) : List StructInfo :=
  fs.search_results.foldl
    (fun acc kv =>
      match kv.2 with
      | SearchVal.processed p => acc ++ p.structures_found
      | SearchVal.raw _ => acc)
    []

/-- One structure's contribution to the templated suggestions (three per
resolved id, skipped when the id is falsy). -/
def followupStep (acc : List String) (st : StructInfo) : List String :=
  if optStrTruthy st.pdb_id then
    acc ++ ["Analyze the structure of " ++ optToStr st.pdb_id,
            "Compare " ++ optToStr st.pdb_id ++ " with similar proteins",
            "Show binding sites in " ++ optToStr st.pdb_id]
  else acc

/-- The templated suggestions for the first two structures (`structures[:2]`). -/
def templatedFollowups (fs : StateD) : List String :=
  ((resolvedStructures fs).take 2).foldl followupStep []

/-- The generic analysis-related prompts. -/
def genericFollowups : List String :=
  ["Can you explain these results in more detail?",
   "How do these properties affect protein function?",
   "Compare this with other similar structures"]

/-- The fixed default triple. -/
def defaultFollowups : List String :=
  ["Can you analyze a specific protein structure?",
   "How can I search for proteins in the PDB database?",
   "Tell me about molecular analysis capabilities"]

/-- `_generate_followups` : up to three suggestions — templated ones for
the first two resolved structure ids, generic analysis prompts, then the
fixed default triple when nothing else applied. -/
def generateFollowups (fs : StateD) : List String :=
  let f1 :=
    if !fs.search_results.isEmpty then
      if !(resolvedStructures fs).isEmpty then templatedFollowups fs else []
    else []
  let f2 := if !fs.analysis_results.isEmpty then f1 ++ genericFollowups else f1
  let f3 := if f2.isEmpty then defaultFollowups else f2
  f3.take 3

/-- `_extract_sources` (`list(set(...))` as first-occurrence dedup). -/
def extractSources (fs : StateD) : List String :=
  let s1 :=
    if !fs.search_results.isEmpty then
      fs.search_results.foldl
        (fun acc kv =>
          match kv.2 with
          | SearchVal.processed p =>
            acc ++ p.structures_found.foldl
              (fun a st =>
                if optStrTruthy st.pdb_id then a ++ ["PDB:" ++ optToStr st.pdb_id] else a)
              []
          | SearchVal.raw _ => acc)
        []
    else []
  let s2 := if !fs.messages.isEmpty then s1 ++ ["OpenAI API via LangGraph Multi-Agent System"] else s1
  dedupFirst s2

/-- `_process_final_result` (`execution_time` already in milliseconds). -/
def processFinalResult (fs : StateD) (execMs : Nat) : WorkflowResp :=
  let responseContent :=
    match fs.messages.getLast? with
    | some m => if m.role == Role.ai then m.content else "Workflow completed."
    | none => "Workflow completed."
  if optStrTruthy fs.error_state then
    { workflowId := fs.workflow_id
      response := "Workflow failed: " ++ optToStr fs.error_state
      actions := []
      newContext := NewContext.errCtx (optToStr fs.error_state)
      suggestedFollowUps :=
        ["Please try again with different parameters",
         "Check the logs for more details",
         "Contact support if the issue persists"]
      metadata :=
        { tokensUsed := 0, duration := execMs
          toolsInvoked := if !fs.current_agent.isEmpty then [fs.current_agent] else []
          confidence_pct := 0, sources := [], error := fs.error_state }
      status := "failed" }
  else
    let toolsInvoked := dedupFirst
      (((fs.agent_handoffs.map fun h => h.to_agent) ++
          (if !fs.current_agent.isEmpty then [fs.current_agent] else [])).filter
        fun t => !t.isEmpty)
    { workflowId := fs.workflow_id
      response := responseContent
      actions := fs.visualization_commands
      newContext := NewContext.okCtx fs.context fs.molecular_data fs.search_results fs.analysis_results
      suggestedFollowUps := generateFollowups fs
      metadata :=
        { tokensUsed := responseContent.length / 4
          duration := execMs
          toolsInvoked := toolsInvoked
          confidence_pct := if !optStrTruthy fs.error_state then 90 else 10
          sources := extractSources fs
          agents_involved := some (dedupFirst (fs.agent_handoffs.map fun h => h.to_agent)).length }
      status := "completed" }

/-! ## Shared proof helpers and demonstration fixtures -/

theorem nodeGuard_ok (pre : String) (s v : StateD) : nodeGuard pre s (Except.ok v) = v := rfl

theorem nodeGuard_err (pre : String) (s : StateD) (e : String) :
    nodeGuard pre s (Except.error e) = { s with error_state := some (pre ++ e) } := rfl

theorem isEmpty_append_false (pre e : String) (h : pre.isEmpty = false) :
    (pre ++ e).isEmpty = false := by
  obtain ⟨l1⟩ := pre
  obtain ⟨l2⟩ := e
  rw [Bool.eq_false_iff] at h ⊢
  intro hcontr
  apply h
  rw [String.isEmpty_iff] at hcontr ⊢
  have hd : l1 ++ l2 = [] := congrArg String.data hcontr
  have h1 : l1 = [] := (List.append_eq_nil.mp hd).1
  subst h1
  rfl

/-- A deterministic stand-in for the external collaborators, resolving only
the id `1ABC`. -/
def demoCollab : Collab :=
  { llm := fun _ => Except.ok "Hello!"
    searchById := fun pid =>
      if pid == "1ABC" then
        Except.ok { status := "success", pdb_id := some "1ABC", title := some "Test structure" }
      else Except.ok { status := "not_found", pdb_id := some pid }
    searchByKeyword := fun _ => Except.ok { status := "not_found" }
    analyze := fun _ _ _ => Except.ok { status := some "success" } }

/-! ## Claim theorems -/

/-- C1: once `error_state` is non-empty in the state returned by any agent
node, `_post_agent_routing` returns `"finalize"` regardless of
`next_agent` (the truthiness test on `error_state` is the first branch). -/
theorem C1_error_short_circuits (s : StateD)
    (h : optStrTruthy s.error_state = true) :
    postAgentRouting s = "finalize" := by
  simp [postAgentRouting, h]

theorem C1_witness :
    optStrTruthy ({ error_state := some "boom", next_agent := some "pdb_search_agent" } : StateD).error_state = true ∧
    postAgentRouting { error_state := some "boom", next_agent := some "pdb_search_agent" } = "finalize" :=
  ⟨by decide, C1_error_short_circuits _ (by decide)⟩

/-- C2: `_routing_decision` follows the fixed priority order
orchestration → pdb_search → molecular_analysis → conversation; in
particular orchestration wins whenever both it and the structure-search
agent claim the request. -/
theorem C2_routing_priority (s : StateD) :
    (orchCanHandle s = true → routingDecision s = "orchestration") ∧
    (orchCanHandle s = false → pdbCanHandle s = true → routingDecision s = "pdb_search") ∧
    (orchCanHandle s = false → pdbCanHandle s = false → molCanHandle s = true →
      routingDecision s = "molecular_analysis") ∧
    (orchCanHandle s = false → pdbCanHandle s = false → molCanHandle s = false →
      routingDecision s = "conversation") ∧
    (orchCanHandle s = true → pdbCanHandle s = true → routingDecision s = "orchestration") := by
  refine ⟨fun h1 => ?_, fun h1 h2 => ?_, fun h1 h2 h3 => ?_, fun h1 h2 h3 => ?_, fun h1 _ => ?_⟩ <;>
    simp [routingDecision, h1]
  all_goals simp [h2]
  all_goals simp [h3]

/-- A state whose latest message makes both the orchestration agent
(trigger word `find`) and the structure-search agent (PDB id `1ABC`)
claim the request. -/
def exBothState : StateD :=
  createInitialState "chat" { message := some "find structure 1ABC" } "wf_demo" 0

theorem C2_witness :
    orchCanHandle exBothState = true ∧ pdbCanHandle exBothState = true ∧
    routingDecision exBothState = "orchestration" :=
  ⟨by decide, by decide, (C2_routing_priority exBothState).2.2.2.2 (by decide) (by decide)⟩

/-- C10: `_post_agent_routing` only ever returns one of the four labels,
and for every error-free state whose `next_agent` is anything other than
the three explicitly mapped agent ids — including `orchestration_agent`
(which is in the engine's agent table but has no mapping branch), unknown
ids, and `None` — it returns `"finalize"`, so the orchestration node is
never re-entered via a hand-off. -/
theorem C10_post_routing_range (s : StateD) :
    (postAgentRouting s = "conversation" ∨ postAgentRouting s = "pdb_search" ∨
      postAgentRouting s = "molecular_analysis" ∨ postAgentRouting s = "finalize") ∧
    (optStrTruthy s.error_state = false →
      (∀ n, s.next_agent = some n → n ≠ "conversation_agent" → n ≠ "pdb_search_agent" →
        n ≠ "molecular_analysis_agent" → postAgentRouting s = "finalize") ∧
      (s.next_agent = none → postAgentRouting s = "finalize")) := by
  constructor
  · unfold postAgentRouting
    by_cases he : optStrTruthy s.error_state
    · simp [he]
    · simp only [he, Bool.false_eq_true, if_false]
      cases hna : s.next_agent with
      | none => simp
      | some n =>
        by_cases h1 : n = "conversation_agent"
        · subst h1; exact Or.inl rfl
        · by_cases h2 : n = "pdb_search_agent"
          · subst h2; exact Or.inr (Or.inl rfl)
          · by_cases h3 : n = "molecular_analysis_agent"
            · subst h3; exact Or.inr (Or.inr (Or.inl rfl))
            · have b1 : (n == "conversation_agent") = false := by simpa using h1
              have b2 : (n == "pdb_search_agent") = false := by simpa using h2
              have b3 : (n == "molecular_analysis_agent") = false := by simpa using h3
              by_cases h0 : !n.isEmpty && knownAgents.contains n <;> simp_all
  · intro he
    constructor
    · intro n hna h1 h2 h3
      unfold postAgentRouting
      simp only [he, Bool.false_eq_true, if_false, hna]
      have b1 : (n == "conversation_agent") = false := by
        simpa using h1
      have b2 : (n == "pdb_search_agent") = false := by
        simpa using h2
      have b3 : (n == "molecular_analysis_agent") = false := by
        simpa using h3
      by_cases h0 : !n.isEmpty && knownAgents.contains n <;> simp_all
    · intro hna
      unfold postAgentRouting
      simp [he, hna]

theorem C10_witness :
    optStrTruthy ({ next_agent := some "orchestration_agent" } : StateD).error_state = false ∧
    ({ next_agent := some "orchestration_agent" } : StateD).next_agent = some "orchestration_agent" ∧
    postAgentRouting { next_agent := some "orchestration_agent" } = "finalize" :=
  ⟨by decide, rfl,
    ((C10_post_routing_range { next_agent := some "orchestration_agent" }).2 (by decide)).1
      "orchestration_agent" rfl (by decide) (by decide) (by decide)⟩

theorem followupFold_spec (l : List StructInfo) :
    ∀ acc : List String,
      l.foldl followupStep acc = acc ∨ acc.length + 3 ≤ (l.foldl followupStep acc).length := by
  induction l with
  | nil => intro acc; exact Or.inl rfl
  | cons st rest ih =>
    intro acc
    show rest.foldl followupStep (followupStep acc st) = acc ∨
      acc.length + 3 ≤ (rest.foldl followupStep (followupStep acc st)).length
    by_cases h : optStrTruthy st.pdb_id
    · have hlen : (followupStep acc st).length = acc.length + 3 := by
        simp [followupStep, h]
      rcases ih (followupStep acc st) with h2 | h2
      · right; rw [h2, hlen]
      · right; omega
    · have hstep : followupStep acc st = acc := by simp [followupStep, h]
      rw [hstep]
      exact ih acc

theorem templated_spec (fs : StateD) :
    templatedFollowups fs = [] ∨ 3 ≤ (templatedFollowups fs).length := by
  unfold templatedFollowups
  rcases followupFold_spec ((resolvedStructures fs).take 2) [] with h | h
  · exact Or.inl h
  · exact Or.inr (by simpa using h)

theorem templated_empty_of_resolved_nil (fs : StateD) (h : resolvedStructures fs = []) :
    templatedFollowups fs = [] := by
  unfold templatedFollowups
  rw [h]
  rfl

theorem resolved_nil_of_search_nil (fs : StateD) (h : fs.search_results = []) :
    resolvedStructures fs = [] := by
  unfold resolvedStructures
  rw [h]
  rfl

/-- The case law of `_generate_followups` in one equation. -/
theorem generateFollowups_eq (fs : StateD) :
    generateFollowups fs =
      if templatedFollowups fs = [] then
        if fs.analysis_results = [] then defaultFollowups else genericFollowups
      else (templatedFollowups fs).take 3 := by
  unfold generateFollowups
  by_cases ht : templatedFollowups fs = []
  · by_cases hs : fs.search_results = []
    · by_cases ha : fs.analysis_results = [] <;>
        simp [hs, ha, ht, genericFollowups, defaultFollowups]
    · by_cases hr : resolvedStructures fs = []
      · by_cases ha : fs.analysis_results = [] <;>
          simp [hs, hr, ha, ht, genericFollowups, defaultFollowups]
      · by_cases ha : fs.analysis_results = [] <;>
          simp [hs, hr, ha, ht, genericFollowups, defaultFollowups]
  · have h3 : 3 ≤ (templatedFollowups fs).length := by
      rcases templated_spec fs with h | h
      · exact absurd h ht
      · exact h
    have hr : resolvedStructures fs ≠ [] := by
      intro hr
      exact ht (templated_empty_of_resolved_nil fs hr)
    have hs : fs.search_results ≠ [] := by
      intro hs
      exact hr (resolved_nil_of_search_nil fs hs)
    by_cases ha : fs.analysis_results = []
    · simp [hs, hr, ha, ht]
    · simp [hs, hr, ha, ht, List.take_append_of_le_length h3]

/-- C9: the result projector produces at most three follow-up suggestions
and never an empty list; when templated suggestions for resolved structure
ids exist they win (truncated to three), otherwise the generic analysis
prompts when analysis results exist, otherwise the fixed default triple. -/
theorem C9_followups (fs : StateD) :
    (generateFollowups fs).length ≤ 3 ∧
    generateFollowups fs ≠ [] ∧
    (templatedFollowups fs ≠ [] → generateFollowups fs = (templatedFollowups fs).take 3) ∧
    (templatedFollowups fs = [] → fs.analysis_results ≠ [] →
      generateFollowups fs = genericFollowups) ∧
    (templatedFollowups fs = [] → fs.analysis_results = [] →
      generateFollowups fs = defaultFollowups) := by
  have heq := generateFollowups_eq fs
  refine ⟨?_, ?_, fun ht => ?_, fun ht ha => ?_, fun ht ha => ?_⟩
  · rw [heq]
    by_cases ht : templatedFollowups fs = []
    · by_cases ha : fs.analysis_results = [] <;>
        simp [ht, ha, genericFollowups, defaultFollowups]
    · rw [if_neg ht]
      exact List.length_take_le 3 (templatedFollowups fs)
  · rw [heq]
    by_cases ht : templatedFollowups fs = []
    · by_cases ha : fs.analysis_results = [] <;>
        simp [ht, ha, genericFollowups, defaultFollowups]
    · rw [if_neg ht]
      intro hcontr
      rw [List.take_eq_nil_iff] at hcontr
      rcases hcontr with h | h
      · exact absurd h (by decide)
      · exact ht h
  · rw [heq, if_neg ht]
  · rw [heq, if_pos ht, if_neg ha]
  · rw [heq, if_pos ht, if_pos ha]

/-- A final state carrying only an analysis-results entry. -/
def exAnalysisState : StateD :=
  { analysis_results := [("molecular_analysis_agent", AnalysisVal.bag {})] }

theorem C9_witness :
    templatedFollowups exAnalysisState = [] ∧
    exAnalysisState.analysis_results ≠ [] ∧
    generateFollowups exAnalysisState = genericFollowups ∧
    (generateFollowups exAnalysisState).length ≤ 3 :=
  ⟨by decide, by decide,
    (C9_followups exAnalysisState).2.2.2.1 (by decide) (by decide),
    (C9_followups exAnalysisState).1⟩

theorem convExec_extends (c : Collab) (now : Nat) (s : StateD) :
    (∃ t, (conversationExecute c now s).messages = s.messages ++ t) ∧
    (∃ t, (conversationExecute c now s).agent_handoffs = s.agent_handoffs ++ t) := by
  by_cases h : (checkDomainRouting (analyzeIntent (extractUserMessage s))).should_route
  · exact ⟨⟨[], by simp [conversationExecute, h]⟩,
      ⟨[{ from_agent := "conversation_agent",
          to_agent := optToStr (checkDomainRouting (analyzeIntent (extractUserMessage s))).target_agent,
          reason := (checkDomainRouting (analyzeIntent (extractUserMessage s))).reason,
          timestamp := now }], by simp [conversationExecute, h]⟩⟩
  · exact ⟨⟨[⟨Role.ai, (generateResponse c (extractUserMessage s) s).content⟩],
      by simp [conversationExecute, h]⟩, ⟨[], by simp [conversationExecute, h]⟩⟩

theorem pdbExec_extends (c : Collab) (now : Nat) (s : StateD) :
    (∃ t, (pdbExecute c now s).messages = s.messages ++ t) ∧
    (∃ t, (pdbExecute c now s).agent_handoffs = s.agent_handoffs ++ t) := by
  unfold pdbExecute
  cases h : c.engineInit with
  | error e =>
    exact ⟨⟨[⟨Role.ai, "PDB search failed: " ++ e⟩], by simp [h]⟩, ⟨[], by simp [h]⟩⟩
  | ok u =>
    refine ⟨⟨[⟨Role.ai, generateResponseMessage
      (processSearchResults (performSearches c (extractSearchParameters s)) s now)⟩], by simp [h]⟩,
      ⟨[], by simp [h]⟩⟩

theorem molExec_extends (c : Collab) (now : Nat) (s : StateD) :
    (∃ t, (molecularExecute c now s).messages = s.messages ++ t) ∧
    (∃ t, (molecularExecute c now s).agent_handoffs = s.agent_handoffs ++ t) := by
  unfold molecularExecute
  cases h : performAnalysis c (prepareAnalysisConfig s) s now with
  | error e =>
    exact ⟨⟨[⟨Role.ai, "Analysis failed: " ++ e⟩], by simp [h]⟩, ⟨[], by simp [h]⟩⟩
  | ok bag =>
    exact ⟨⟨[⟨Role.ai, "Molecular analysis completed. "
      ++ (generateAnalysisSummary bag).description⟩], by simp [h]⟩, ⟨[], by simp [h]⟩⟩

theorem orchExec_extends (c : Collab) (now : Nat) (s : StateD) :
    (∃ t, (orchestrationExecute c now s).messages = s.messages ++ t) ∧
    (∃ t, (orchestrationExecute c now s).agent_handoffs = s.agent_handoffs ++ t) := by
  exact ⟨⟨[⟨Role.ai, generateWorkflowSummary
      (executePlan c now (planWorkflow s).steps s).1 (planWorkflow s)⟩],
    by simp [orchestrationExecute]⟩, ⟨[], by simp [orchestrationExecute]⟩⟩

theorem finalize_extends (now : Nat) (s : StateD) :
    (∃ t, (finalizeNode now s).messages = s.messages ++ t) ∧
    (∃ t, (finalizeNode now s).agent_handoffs = s.agent_handoffs ++ t) := by
  by_cases h : s.completed_at.isNone
  · exact ⟨⟨[], by simp [finalizeNode, h]⟩, ⟨[], by simp [finalizeNode, h]⟩⟩
  · exact ⟨⟨[], by simp [finalizeNode, h]⟩, ⟨[], by simp [finalizeNode, h]⟩⟩

/-- C6: every node function of the graph (`route_request`, the four agent
nodes, `finalize_response`) only ever appends to `messages` and
`agent_handoffs` — the input lists are a prefix of the output lists for
every input state and collaborator outcome, so both lengths are
non-decreasing across every node transition. -/
theorem C6_append_only (c : Collab) (now : Nat) (s : StateD) :
    ((∃ t, (routeRequestNode s).messages = s.messages ++ t) ∧
      (∃ t, (routeRequestNode s).agent_handoffs = s.agent_handoffs ++ t)) ∧
    ((∃ t, (conversationAgentNode c now s).messages = s.messages ++ t) ∧
      (∃ t, (conversationAgentNode c now s).agent_handoffs = s.agent_handoffs ++ t)) ∧
    ((∃ t, (pdbAgentNode c now s).messages = s.messages ++ t) ∧
      (∃ t, (pdbAgentNode c now s).agent_handoffs = s.agent_handoffs ++ t)) ∧
    ((∃ t, (molecularAgentNode c now s).messages = s.messages ++ t) ∧
      (∃ t, (molecularAgentNode c now s).agent_handoffs = s.agent_handoffs ++ t)) ∧
    ((∃ t, (orchestrationAgentNode c now s).messages = s.messages ++ t) ∧
      (∃ t, (orchestrationAgentNode c now s).agent_handoffs = s.agent_handoffs ++ t)) ∧
    ((∃ t, (finalizeNode now s).messages = s.messages ++ t) ∧
      (∃ t, (finalizeNode now s).agent_handoffs = s.agent_handoffs ++ t)) :=
  ⟨⟨⟨[], by simp [routeRequestNode]⟩, ⟨[], by simp [routeRequestNode]⟩⟩,
    convExec_extends c now s,
    pdbExec_extends c now s,
    molExec_extends c now s,
    orchExec_extends c now s,
    finalize_extends now s⟩

/-- C7: no agent-local failure escapes the node boundary — each of the
four agent nodes is `nodeGuard` over the agent's execution outcome, and
the guard returns normally on every outcome: a normal result is passed
through unchanged, while an exception is converted into a non-empty,
agent-naming `error_state` on the input state, after which the next
routing decision is `finalize`. -/
theorem C7_agent_boundary (c : Collab) (now : Nat) (s : StateD)
    (r : Except String StateD) (pre : String)
    (hpre : pre ∈ ["Conversation agent failed: ", "PDB search agent failed: ",
      "Molecular analysis agent failed: ", "Orchestration agent failed: "]) :
    conversationAgentNode c now s
        = nodeGuard "Conversation agent failed: " s (conversationExecuteE c now s) ∧
    pdbAgentNode c now s = nodeGuard "PDB search agent failed: " s (pdbExecuteE c now s) ∧
    molecularAgentNode c now s
        = nodeGuard "Molecular analysis agent failed: " s (molecularExecuteE c now s) ∧
    orchestrationAgentNode c now s
        = nodeGuard "Orchestration agent failed: " s (orchestrationExecuteE c now s) ∧
    (∀ v, r = Except.ok v → nodeGuard pre s r = v) ∧
    (∀ e, r = Except.error e →
      nodeGuard pre s r = { s with error_state := some (pre ++ e) } ∧
      optStrTruthy (nodeGuard pre s r).error_state = true ∧
      postAgentRouting (nodeGuard pre s r) = "finalize") := by
  refine ⟨rfl, rfl, rfl, rfl, fun v hv => by rw [hv]; rfl, fun e he => ?_⟩
  subst he
  have hne : pre.isEmpty = false := by
    simp only [List.mem_cons, List.not_mem_nil, or_false] at hpre
    rcases hpre with h | h | h | h <;> subst h <;> decide
  have htruthy : optStrTruthy (some (pre ++ e)) = true := by
    simp [optStrTruthy, isEmpty_append_false pre e hne]
  refine ⟨rfl, ?_, ?_⟩
  · simpa [nodeGuard] using htruthy
  · simp [postAgentRouting, nodeGuard, htruthy]

theorem C7_witness :
    nodeGuard "Conversation agent failed: " ({} : StateD) (Except.error "collaborator down")
      = { ({} : StateD) with
          error_state := some ("Conversation agent failed: " ++ "collaborator down") } ∧
    optStrTruthy (nodeGuard "Conversation agent failed: " ({} : StateD)
      (Except.error "collaborator down")).error_state = true ∧
    postAgentRouting (nodeGuard "Conversation agent failed: " ({} : StateD)
      (Except.error "collaborator down")) = "finalize" :=
  (C7_agent_boundary demoCollab 0 {} (Except.error "collaborator down")
    "Conversation agent failed: " (by decide)).2.2.2.2.2 "collaborator down" rfl

theorem finalizeNode_error (now : Nat) (s : StateD) :
    (finalizeNode now s).error_state = s.error_state := by
  by_cases h : s.completed_at.isNone <;> simp [finalizeNode, h]

theorem processFinal_failed (fs : StateD) (ms : Nat)
    (h : optStrTruthy fs.error_state = true) :
    (processFinalResult fs ms).status = "failed" := by
  unfold processFinalResult
  simp [h]

/-- C8: the structural-analysis agent, invoked on a state with no structure
payload in `molecular_data`, `parameters`, or `search_results`, returns a
state whose `error_state` is the "no structure data available" message,
appends no visualization actions, and the workflow then finalizes with
response status `"failed"`. -/
theorem C8_no_structure_data (c : Collab) (now : Nat) (s : StateD)
    (h1 : optStrTruthy s.molecular_data.structure_data = false)
    (h2 : optStrTruthy s.molecular_data.pdb_data = false)
    (h3 : optStrTruthy s.parameters.structure_data = false)
    (h4 : assocGet s.search_results "pdb_data" = none) :
    (molecularExecute c now s).error_state
      = some "Molecular analysis failed: No structure data available for analysis" ∧
    (molecularExecute c now s).visualization_commands = s.visualization_commands ∧
    postAgentRouting (molecularExecute c now s) = "finalize" ∧
    (processFinalResult (finalizeNode (now + 1) (molecularExecute c now s)) 0).status
      = "failed" := by
  have hconf : optStrTruthy (prepareAnalysisConfig s).structure_data = false := by
    unfold prepareAnalysisConfig
    simp only [h1, h2, h3]
    rfl
  have hperf : performAnalysis c (prepareAnalysisConfig s) s now
      = Except.error "No structure data available for analysis" := by
    unfold performAnalysis
    simp [hconf, h4]
  have hexec : molecularExecute c now s
      = { s with
          error_state :=
            some ("Molecular analysis failed: " ++ "No structure data available for analysis")
          current_agent := "molecular_analysis_agent"
          messages := s.messages
            ++ [⟨Role.ai, "Analysis failed: " ++ "No structure data available for analysis"⟩] } := by
    unfold molecularExecute
    simp only [hperf]
  rw [hexec]
  refine ⟨rfl, rfl, rfl, ?_⟩
  apply processFinal_failed
  rw [finalizeNode_error]
  exact (by decide :
    optStrTruthy (some ("Molecular analysis failed: "
      ++ "No structure data available for analysis")) = true)

theorem C8_witness :
    (molecularExecute demoCollab 3 {}).error_state
      = some "Molecular analysis failed: No structure data available for analysis" ∧
    (molecularExecute demoCollab 3 {}).visualization_commands
      = ({} : StateD).visualization_commands ∧
    postAgentRouting (molecularExecute demoCollab 3 {}) = "finalize" ∧
    (processFinalResult (finalizeNode (3 + 1) (molecularExecute demoCollab 3 {})) 0).status
      = "failed" :=
  C8_no_structure_data demoCollab 3 {} (by decide) (by decide) (by decide) (by decide)

/-- Scenario A fixture: the caller message
`"Show me the structure of 1ABC"` with no special context. -/
def scenarioAInit : StateD :=
  createInitialState "conversation" { message := some "Show me the structure of 1ABC" }
    "wf_a" 0

/-- C3 counterexample: for `"Show me the structure of 1ABC"` the initial
routing decision is `"orchestration"` — the word `show` is a trigger of the
predefined interactive-search plan, and orchestration is checked first —
not `"pdb_search"` as the claim states. -/
theorem C3_counterexample :
    routingDecision (routeRequestNode scenarioAInit) = "orchestration" ∧
    routingDecision (routeRequestNode scenarioAInit) ≠ "pdb_search" := by
  have h : routingDecision (routeRequestNode scenarioAInit) = "orchestration" := by decide
  exact ⟨h, by rw [h]; decide⟩

/-- C3 (amended): the initial routing for that message selects the
orchestration node; when the structure-search agent's execute is invoked on
this state (as the orchestrated plan does) with the database collaborator
returning a success record for 1ABC, the returned state carries exactly one
visualization action whose `pdb_id` is `"1ABC"`, and finalizing that state
projects a response with those actions and status `"completed"`. -/
theorem C3_amended_search_behaviour :
    routingDecision (routeRequestNode scenarioAInit) = "orchestration" ∧
    (pdbExecute demoCollab 1 scenarioAInit).visualization_commands.map
        (fun a => a.result.pdb_id) = [some "1ABC"] ∧
    postAgentRouting (pdbExecute demoCollab 1 scenarioAInit) = "finalize" ∧
    (processFinalResult (finalizeNode 2 (pdbExecute demoCollab 1 scenarioAInit)) 5).actions
      = (pdbExecute demoCollab 1 scenarioAInit).visualization_commands ∧
    (processFinalResult (finalizeNode 2 (pdbExecute demoCollab 1 scenarioAInit)) 5).status
      = "completed" := by
  decide

/-- Scenario fixture for the completion-stamp claim: a message that routes
to the structure-search agent and requests analysis (`binding`), with a
caller-supplied structure payload so the analysis step succeeds. -/
def scenarioBInit : StateD :=
  createInitialState "chat"
    { message := some "Get 1ABC binding data", structure_data := some "ATOMDATA" }
    "wf_b" 0

/-- C4 counterexample: one graph execution in which two distinct agent
nodes assign `completed_at` with different values — the pdb-search node
stamps clock 1, then hands off to the molecular-analysis node, which
overwrites it with clock 2 (the finalize node then leaves it unchanged). -/
theorem C4_counterexample :
    (runWorkflow demoCollab 10 scenarioBInit).map Prod.fst
      = ["route_request", "pdb_search", "molecular_analysis", "finalize_response"] ∧
    (runWorkflow demoCollab 10 scenarioBInit).map (fun p => p.2.completed_at)
      = [none, some 1, some 2, some 2] := by
  decide

/-- C4 (amended): `completed_at` is not single-assignment — the pdb-search
and molecular-analysis executes each stamp their own current clock on
success, so a hand-off chain produces a second assignment with a different
value; only `finalize_response` is idempotent, setting `completed_at` only
when unset. -/
theorem C4_amended_completion (c : Collab) (now : Nat) (s : StateD) :
    (s.completed_at.isSome = true → (finalizeNode now s).completed_at = s.completed_at) ∧
    ((performAnalysis c (prepareAnalysisConfig s) s now).isOk = true →
      (molecularExecute c now s).completed_at = some now) ∧
    (c.engineInit = Except.ok () → (pdbExecute c now s).completed_at = some now) := by
  refine ⟨fun h => ?_, fun h => ?_, fun h => ?_⟩
  · have hn : s.completed_at.isNone = false := by
      cases hc : s.completed_at <;> simp_all
    simp [finalizeNode, hn]
  · unfold molecularExecute
    cases hp : performAnalysis c (prepareAnalysisConfig s) s now with
    | error e => rw [hp] at h; simp [Except.isOk, Except.toBool] at h
    | ok bag => simp [hp]
  · unfold pdbExecute
    simp [h]

/-- The state after the pdb-search node in the scenario-B execution. -/
def scenarioBMid : StateD := pdbExecute demoCollab 1 scenarioBInit

theorem C4_witness :
    (finalizeNode 9 ({ completed_at := some 5 } : StateD)).completed_at = some 5 ∧
    (molecularExecute demoCollab 2 scenarioBMid).completed_at = some 2 ∧
    (pdbExecute demoCollab 1 scenarioBInit).completed_at = some 1 :=
  ⟨(C4_amended_completion demoCollab 9 { completed_at := some 5 }).1 (by decide),
   (C4_amended_completion demoCollab 2 scenarioBMid).2.1 (by decide),
   (C4_amended_completion demoCollab 1 scenarioBInit).2.2 rfl⟩

/-- Adversarial agent occupying the conversation slot: always hands off to
the pdb-search agent, never sets `error_state` or `completed_at`. -/
def advA (s : StateD) : StateD :=
  { s with current_agent := "conversation_agent", next_agent := some "pdb_search_agent" }

/-- Adversarial agent occupying the pdb-search slot: always hands back to
the conversation agent. -/
def advB (s : StateD) : StateD :=
  { s with current_agent := "pdb_search_agent", next_agent := some "conversation_agent" }

/-- The node map of the adversarial pair, plugged into the graph loop. -/
def advNodes (label : String) (_now : Nat) (s : StateD) : StateD :=
  if label == "conversation" then advA s
  else if label == "pdb_search" then advB s
  else s

/-- An initial state for the adversarial run (no error, no hand-off yet). -/
def advInit : StateD := {}

theorem postRouting_advA (s : StateD) (h : optStrTruthy s.error_state = false) :
    postAgentRouting (advA s) = "pdb_search" := by
  unfold postAgentRouting advA
  simp only [h]
  rfl

theorem postRouting_advB (s : StateD) (h : optStrTruthy s.error_state = false) :
    postAgentRouting (advB s) = "conversation" := by
  unfold postAgentRouting advB
  simp only [h]
  rfl

/-- For the adversarial pair, every finite unrolling of the graph loop uses
all of its fuel — the routing decision alternates between the two agent
labels and never reaches `finalize` — so `_post_agent_routing` imposes no
hop cap. -/
theorem advLoop_spec :
    ∀ (fuel : Nat) (label : String) (now : Nat) (s : StateD),
      (label = "conversation" ∨ label = "pdb_search") →
      optStrTruthy s.error_state = false →
      (runLoop advNodes fuel label now s).length = fuel ∧
        ∀ p ∈ runLoop advNodes fuel label now s,
          p.1 = "conversation" ∨ p.1 = "pdb_search"
  | 0, label, now, s, _, _ => by simp [runLoop]
  | fuel + 1, label, now, s, hl, he => by
    rcases hl with h | h
    · subst h
      have hstep : runLoop advNodes (fuel + 1) "conversation" now s
          = ("conversation", advA s)
            :: runLoop advNodes fuel "pdb_search" (now + 1) (advA s) := by
        show (if ("conversation" == "finalize") = true then _
          else if ("conversation" == "end") = true then _ else _) = _
        rw [if_neg (by decide), if_neg (by decide)]
        show ("conversation", advNodes "conversation" now s)
            :: runLoop advNodes fuel (postAgentRouting (advNodes "conversation" now s))
              (now + 1) (advNodes "conversation" now s) = _
        rw [show advNodes "conversation" now s = advA s from rfl, postRouting_advA s he]
      have ih := advLoop_spec fuel "pdb_search" (now + 1) (advA s) (Or.inr rfl)
        (by simpa [advA] using he)
      rw [hstep]
      refine ⟨by simpa using ih.1, ?_⟩
      intro p hp
      rcases List.mem_cons.mp hp with h | h
      · subst h; exact Or.inl rfl
      · exact ih.2 p h
    · subst h
      have hstep : runLoop advNodes (fuel + 1) "pdb_search" now s
          = ("pdb_search", advB s)
            :: runLoop advNodes fuel "conversation" (now + 1) (advB s) := by
        show (if ("pdb_search" == "finalize") = true then _
          else if ("pdb_search" == "end") = true then _ else _) = _
        rw [if_neg (by decide), if_neg (by decide)]
        show ("pdb_search", advNodes "pdb_search" now s)
            :: runLoop advNodes fuel (postAgentRouting (advNodes "pdb_search" now s))
              (now + 1) (advNodes "pdb_search" now s) = _
        rw [show advNodes "pdb_search" now s = advB s from rfl, postRouting_advB s he]
      have ih := advLoop_spec fuel "conversation" (now + 1) (advB s) (Or.inl rfl)
        (by simpa [advB] using he)
      rw [hstep]
      refine ⟨by simpa using ih.1, ?_⟩
      intro p hp
      rcases List.mem_cons.mp hp with h | h
      · subst h; exact Or.inr rfl
      · exact ih.2 p h

/-- C5 counterexample: the claim's hop cap does not exist — for the
adversarial pair there is no amount of fuel at which the loop reaches the
`finalize_response` node; the hand-off cycle never terminates at the
routing level. -/
theorem C5_counterexample :
    ¬ ∃ fuel : Nat,
      "finalize_response" ∈ (runLoop advNodes fuel "conversation" 0 advInit).map Prod.fst := by
  rintro ⟨fuel, hmem⟩
  rcases List.mem_map.mp hmem with ⟨p, hp, hfst⟩
  rcases (advLoop_spec fuel "conversation" 0 advInit (Or.inl rfl) (by decide)).2 p hp with h | h
  · rw [h] at hfst; exact absurd hfst (by decide)
  · rw [h] at hfst; exact absurd hfst (by decide)

/-- C5 (amended): the source has no hop counter — for an adversarial pair
that always set `next_agent` to each other (error_state never set), every
finite unrolling of the post-agent routing loop consumes all its fuel,
visiting only the two agent nodes and never `finalize_response`; any bound
observed in deployment comes from the LangGraph runtime's recursion limit,
which raises an error rather than forcing finalize. -/
theorem C5_amended_no_cap (fuel : Nat) :
    (runLoop advNodes fuel "conversation" 0 advInit).length = fuel ∧
    ∀ p ∈ runLoop advNodes fuel "conversation" 0 advInit,
      p.1 = "conversation" ∨ p.1 = "pdb_search" :=
  advLoop_spec fuel "conversation" 0 advInit (Or.inl rfl) (by decide)

theorem C5_witness :
    (runLoop advNodes 6 "conversation" 0 advInit).length = 6 :=
  (C5_amended_no_cap 6).1

end BMAD
